import Mathlib

/-!
# Offline_AI: the native llama.cpp wrapper (`llama_wrapper.cpp`)

A shallow embedding of `src/offline_llm_app/native/llama_wrapper.cpp`.

* The wrapper's own state is passed explicitly: the two process-wide strings
  (`g_last_error`, `g_model_info`) live in `World`, the heap object behind a
  `LlamaContext` pointer is a `LlamaContextInternal` value, and a pointer is an
  `Option` (`none` is the null pointer).
* llama.cpp and libc's `snprintf` are external code.  They are the fields of
  `LlamaLib σ`, where `σ` is the state of everything outside the wrapper (KV cache,
  sampler RNG, the caller's `user_data`, other threads).
* The caller's callback is arbitrary code run in-line: it acts on the whole `World`,
  the outside state and the two process-wide strings, which it can reach by calling
  back into the exported API.
* Every call returns, next to its C return value, the list of external calls it made
  (`Event`), in program order.
* `float` arguments are IEEE-754 binary32 bit patterns.
-/

namespace LlamaWrapper

/-! ## Data model -/

/-- A token id (`llama_token`, a 32-bit signed integer). -/
abbrev llama_token := Int

/-- The address of a loaded `llama_model` object (a non-null pointer). -/
abbrev llama_model := Nat

/-- The address of a `llama_context` object (a non-null pointer). -/
abbrev llama_context := Nat

/-- A C `float`: the IEEE-754 binary32 bit pattern, read modulo `2^32`. -/
structure c_float where
  bits : Nat
deriving DecidableEq, Repr

/-- The C comparison `x > 0.0f`: true exactly for the positive subnormal, normal and
`+inf` patterns `0x00000001 .. 0x7F800000`; false for `+0`, `-0`, every negative
value and every NaN. -/
def c_float.gt_zero (x : c_float) : Bool :=
  decide (0 < x.bits % 2 ^ 32) && decide (x.bits % 2 ^ 32 ≤ 0x7F800000)

/-- The pattern is a NaN (exponent all ones, mantissa non-zero, either sign). -/
def c_float.is_nan (x : c_float) : Bool :=
  decide (0x7F800000 < x.bits % 2 ^ 31)

/-- The pattern is `+0.0f` or `-0.0f`. -/
def c_float.is_zero (x : c_float) : Bool :=
  decide (x.bits % 2 ^ 31 = 0)

/-- The sign bit is set (negative values, `-0.0f`, negative NaNs). -/
def c_float.sign_bit (x : c_float) : Bool :=
  decide (2 ^ 31 ≤ x.bits % 2 ^ 32)

/-- One stage of a sampler chain, named after the llama.cpp constructor that makes it:
`llama_sampler_init_top_p(p, min_keep)`, `llama_sampler_init_temp(t)`,
`llama_sampler_init_dist(seed)`, `llama_sampler_init_greedy()`. -/
inductive llama_sampler_stage where
  | top_p (p : c_float) (min_keep : Nat)
  | temp (t : c_float)
  | dist (seed : Nat)
  | greedy
deriving DecidableEq, Repr

/-- A sampler chain: the stages in the order `llama_sampler_chain_add` appended them. -/
abbrev llama_sampler := List llama_sampler_stage

/-- The fields of `llama_context_params` the wrapper sets. -/
structure llama_context_params where
  n_ctx : Int
  n_batch : Int
  n_threads : Int
  n_threads_batch : Int
deriving DecidableEq, Repr

/-- The heap object behind a `LlamaContext` handle (`struct LlamaContextInternal`).
`generate_mutex` has no sequential content and is left out. -/
structure LlamaContextInternal where
  model : Option llama_model := none
  ctx : Option llama_context := none
  sampler : Option llama_sampler := none
  cancel_requested : Bool := false
  model_path : String := ""
  n_ctx : Int := 2048
deriving DecidableEq, Repr

/-- The opaque handle `LlamaContext` (`void*`): null, or the object it points to. -/
abbrev LlamaContext := Option LlamaContextInternal

/-- One entry of a call's trace: an external call that loads, frees, tokenizes,
builds or frees a sampler chain, decodes, samples or runs the callback, or one atomic
`load()` of the handle's cancellation flag with the value it observed.  (The pure
vocabulary queries `llama_vocab_is_eog` and `llama_token_to_piece` are not recorded.) -/
inductive Event where
  | model_load (path : String) (n_gpu_layers : Int)
  | context_init (model : llama_model) (params : llama_context_params)
  | model_free (model : llama_model)
  | tokenize (prompt : String) (n_tokens_max : Int)
  | sampler_init (chain : llama_sampler)
  | sampler_free
  | decode (batch : List llama_token) (status : Int)
  | cancel_check (observed : Bool)
  | sample (token : llama_token)
  | callback (text : String) (result : Int)
deriving DecidableEq, Repr

/-- The external code the wrapper calls, over the outside state `σ`.

* `llama_tokenize vocab prompt n_tokens_max` gives the returned count and the token
  buffer after the call; `vocab` is `llama_model_get_vocab(internal->model)`, passed as
  the model pointer it is read from.
* `llama_decode`, `llama_sampler_sample` give their result and the new outside state.
* `llama_token_to_piece` gives the returned length and the bytes written to the buffer.
* `cancel_arrived s` says whether, in outside state `s`, some other agent (another
  thread, or the callback itself) has executed `llama_wrapper_cancel_generate` on this
  handle since the wrapper last accessed the flag: it is what makes an atomic `load()`
  of `cancel_requested` differ from the value this thread last saw.
* `snprintf_model_info n_ctx n_vocab path` is the text `snprintf` leaves in the
  1024-byte buffer of `llama_wrapper_get_model_info`. -/
structure LlamaLib (σ : Type) where
  llama_model_load_from_file : σ → String → Int → Option llama_model × σ
  llama_init_from_model : σ → llama_model → llama_context_params → Option llama_context × σ
  llama_tokenize : Option llama_model → String → Int → Int × List llama_token
  llama_decode : σ → Option llama_context → List llama_token → Int × σ
  llama_sampler_sample : σ → llama_sampler → Option llama_context → llama_token × σ
  llama_vocab_is_eog : Option llama_model → llama_token → Bool
  llama_token_to_piece : Option llama_model → llama_token → Int × String
  llama_vocab_present : Option llama_model → Bool
  llama_vocab_n_tokens : Option llama_model → Int
  cancel_arrived : σ → Bool
  snprintf_model_info : Int → Int → String → String

/-- The state a call starts from and leaves behind, apart from the handle: the
process-wide `g_last_error` and `g_model_info`, and the outside state. -/
structure World (σ : Type) where
  g_last_error : String := ""
  g_model_info : String := ""
  lib : σ

/-- The caller's `TokenCallback`, a possibly null function pointer: it receives the
token text and the `user_data` pointer and returns an `int`.  It runs in-line on the
generating thread and is arbitrary caller code: besides the outside state it may change
the two process-wide strings, by calling back into the exported API
(`llama_wrapper_generate(NULL, ..)` and `llama_wrapper_load_model("", ..)` write the error
channel, `llama_wrapper_get_model_info` writes `g_model_info`).  A
`llama_wrapper_cancel_generate` it issues on the handle shows in `cancel_arrived` of the
outside state it leaves. -/
abbrev TokenCallback (σ : Type) := Option (World σ → String → Nat → Int × World σ)

/-- The callback, when there is one, leaves the error channel as it found it. -/
def callback_keeps_error {σ : Type} (callback : TokenCallback σ) : Prop :=
  ∀ cb, callback = some cb →
    ∀ (w : World σ) (text : String) (user_data : Nat),
      (cb w text user_data).2.g_last_error = w.g_last_error

/-! ## Helper functions -/

/-- `set_error`: overwrite the error channel. -/
def set_error {σ : Type} (w : World σ) (error : String) : World σ :=
  { w with g_last_error := error }

/-- `clear_error`: empty the error channel. -/
def clear_error {σ : Type} (w : World σ) : World σ :=
  { w with g_last_error := "" }

/-- `llama_wrapper_get_error`: read the error channel. -/
def llama_wrapper_get_error {σ : Type} (w : World σ) : String :=
  w.g_last_error

/-- `std::vector::resize(n)` on a vector of tokens: truncate, or pad with zeros. -/
def vector_resize (v : List llama_token) (n : Nat) : List llama_token :=
  (v ++ List.replicate (n - v.length) 0).take n

/-! ## llama_wrapper_load_model -/

/-- What `llama_wrapper_load_model` returns and leaves behind. -/
structure LoadResult (σ : Type) where
  handle : LlamaContext
  world : World σ
  trace : List Event

/-- `llama_wrapper_load_model(model_path, n_ctx, n_gpu_layers)`. -/
def llama_wrapper_load_model {σ : Type} (E : LlamaLib σ) (w : World σ)
    (model_path : Option String) (n_ctx n_gpu_layers : Int) : LoadResult σ :=
  let w := clear_error w
  match model_path with
  | none => ⟨none, set_error w "Model path is empty", []⟩
  | some path =>
    if path.utf8ByteSize = 0 then
      ⟨none, set_error w "Model path is empty", []⟩
    else
      let internal : LlamaContextInternal :=
        { model_path := path, n_ctx := if n_ctx > 0 then n_ctx else 2048 }
      let loaded := E.llama_model_load_from_file w.lib path n_gpu_layers
      let w := { w with lib := loaded.2 }
      match loaded.1 with
      | none =>
        ⟨none, set_error w ("Failed to load model from: " ++ path),
          [Event.model_load path n_gpu_layers]⟩
      | some model =>
        let internal := { internal with model := some model }
        let ctx_params : llama_context_params :=
          { n_ctx := internal.n_ctx, n_batch := 512, n_threads := 4, n_threads_batch := 4 }
        let created := E.llama_init_from_model w.lib model ctx_params
        let w := { w with lib := created.2 }
        match created.1 with
        | none =>
          ⟨none, set_error w "Failed to create llama context",
            [Event.model_load path n_gpu_layers, Event.context_init model ctx_params,
             Event.model_free model]⟩
        | some c =>
          ⟨some { internal with ctx := some c }, w,
            [Event.model_load path n_gpu_layers, Event.context_init model ctx_params]⟩

/-! ## llama_wrapper_generate -/

/-- Which exit the emit loop `while (n_generated < max_tokens)` took: the loop condition
failing, or one of its four `break`s.  `out_of_fuel` is the embedding's own exit, taken
when the iteration budget of `emit_loop` is used up; `generate_never_out_of_fuel` shows
that `llama_wrapper_generate` never takes it. -/
inductive LoopExit where
  | max_tokens_reached
  | cancelled
  | end_of_generation
  | callback_stop
  | decode_failed
  | out_of_fuel
deriving DecidableEq, Repr

/-- The variables the emit loop reads and writes, its trace and its exit. -/
structure LoopResult (σ : Type) where
  n_generated : Int
  cancel_requested : Bool
  world : World σ
  trace : List Event
  loop_exit : LoopExit

/-- Source lines 242-253: hand the token text to the callback when the text is non-empty
and a callback is present.  Gives whether the callback asked to stop (`result != 0`), the
world afterwards and the callback invocation made, if any. -/
def emit_token {σ : Type} (callback : TokenCallback σ) (user_data : Nat) (token_len : Int)
    (token_text : String) (w : World σ) : Bool × World σ × List Event :=
  if token_len > 0 then
    match callback with
    | some cb =>
      let result := cb w token_text user_data
      (decide (result.1 ≠ 0), result.2, [Event.callback token_text result.1])
    | none => (false, w, [])
  else (false, w, [])

/-- How one pass through the loop body ends: at a `break`, or at `n_generated++`.  Both
carry the handle's flag, the world and the external calls of the pass. -/
inductive BodyOutcome (σ : Type) where
  | exit (by_break : LoopExit) (cancel_requested : Bool) (w : World σ) (events : List Event)
  | next (cancel_requested : Bool) (w : World σ) (events : List Event)

/-- One pass through the body of the emit loop (source lines 225-262).  The atomic
`load()` of the flag sees `true` when this thread last saw `true` or a cancellation has
arrived from outside since; the flag carried on is the value this `load()` saw. -/
def emit_body {σ : Type} (E : LlamaLib σ) (model : Option llama_model)
    (ctx : Option llama_context) (sampler : llama_sampler) (callback : TokenCallback σ)
    (user_data : Nat) (cancel_requested : Bool) (w : World σ) : BodyOutcome σ :=
  -- Check for cancellation
  let flag := cancel_requested || E.cancel_arrived w.lib
  if flag then
    BodyOutcome.exit LoopExit.cancelled flag w [Event.cancel_check true]
  else
    -- Sample next token
    let sampled := E.llama_sampler_sample w.lib sampler ctx
    let new_token := sampled.1
    -- Check for end of generation
    if E.llama_vocab_is_eog model new_token then
      BodyOutcome.exit LoopExit.end_of_generation flag { w with lib := sampled.2 }
        [Event.cancel_check false, Event.sample new_token]
    else
      -- Convert token to text, call the callback with the generated token
      let piece := E.llama_token_to_piece model new_token
      let emitted := emit_token callback user_data piece.1 piece.2
        { w with lib := sampled.2 }
      if emitted.1 then
        -- Callback requested stop
        BodyOutcome.exit LoopExit.callback_stop flag emitted.2.1
          ([Event.cancel_check false, Event.sample new_token] ++ emitted.2.2)
      else
        -- Decode the new token
        let decoded := E.llama_decode emitted.2.1.lib ctx [new_token]
        if decoded.1 ≠ 0 then
          BodyOutcome.exit LoopExit.decode_failed flag
            (set_error { emitted.2.1 with lib := decoded.2 }
              "Failed to decode generated token")
            ([Event.cancel_check false, Event.sample new_token] ++ emitted.2.2
              ++ [Event.decode [new_token] decoded.1])
        else
          BodyOutcome.next flag { emitted.2.1 with lib := decoded.2 }
            ([Event.cancel_check false, Event.sample new_token] ++ emitted.2.2
              ++ [Event.decode [new_token] decoded.1])

/-- The emit loop `while (n_generated < max_tokens)` of `llama_wrapper_generate` (source
lines 224-265), entered with the current `n_generated`, the handle's flag and the
world.  `fuel` bounds the number of passes through the body.  The counter is only
incremented while it is below `max_tokens`, so the C `int` increment never wraps and the
counter is an unbounded integer here. -/
def emit_loop {σ : Type} (E : LlamaLib σ) (model : Option llama_model)
    (ctx : Option llama_context) (sampler : llama_sampler) (max_tokens : Int)
    (callback : TokenCallback σ) (user_data : Nat) :
    Nat → Int → Bool → World σ → LoopResult σ
  | fuel, n_generated, cancel_requested, w =>
    if n_generated < max_tokens then
      match fuel with
      | 0 => ⟨n_generated, cancel_requested, w, [], LoopExit.out_of_fuel⟩
      | fuel + 1 =>
        match emit_body E model ctx sampler callback user_data cancel_requested w with
        | BodyOutcome.exit by_break flag w events =>
          ⟨n_generated, flag, w, events, by_break⟩
        | BodyOutcome.next flag w events =>
          let r := emit_loop E model ctx sampler max_tokens callback user_data
            fuel (n_generated + 1) flag w
          { r with trace := events ++ r.trace }
    else
      ⟨n_generated, cancel_requested, w, [], LoopExit.max_tokens_reached⟩

/-- The sampler chain `llama_wrapper_generate` builds (source lines 193-204). -/
def build_sampler_chain (temperature top_p : c_float) : llama_sampler :=
  if temperature.gt_zero then
    [llama_sampler_stage.top_p top_p 1, llama_sampler_stage.temp temperature,
     llama_sampler_stage.dist 0]
  else
    [llama_sampler_stage.greedy]

/-- What `llama_wrapper_generate` returns and leaves behind: the C return value, the
handle's object, the world, the external calls made, and the exit the emit loop took
(`none` when the call returned before the loop). -/
structure GenerateResult (σ : Type) where
  ret : Int
  handle : LlamaContext
  world : World σ
  trace : List Event
  loop_exit : Option LoopExit

/-- `llama_wrapper_generate(ctx, prompt, max_tokens, temperature, top_p, callback,
user_data)`.  The emit loop gets `max_tokens` passes of fuel.  A non-null handle is one
that `llama_wrapper_load_model` returned: its `n_ctx` is positive, so the token vector
of that size can be built, and its model is present, so the vocabulary can be read. -/
def llama_wrapper_generate {σ : Type} (E : LlamaLib σ) (w : World σ) (ctx : LlamaContext)
    (prompt : Option String) (max_tokens : Int) (temperature top_p : c_float)
    (callback : TokenCallback σ) (user_data : Nat) : GenerateResult σ :=
  match ctx with
  | none => ⟨-1, none, set_error w "Context is null", [], none⟩
  | some internal =>
    match prompt with
    | none => ⟨-2, some internal, set_error w "Prompt is null", [], none⟩
    | some prompt =>
      -- Reset cancellation flag
      let internal := { internal with cancel_requested := false }
      let w := clear_error w
      -- Tokenize the prompt
      let n_prompt_max := internal.n_ctx
      let tokenized := E.llama_tokenize internal.model prompt n_prompt_max
      let n_tokens := tokenized.1
      if n_tokens < 0 then
        ⟨-3, some internal, set_error w "Failed to tokenize prompt",
          [Event.tokenize prompt n_prompt_max], none⟩
      else
        let tokens := vector_resize tokenized.2 n_tokens.toNat
        -- Create a sampler chain
        let sampler := build_sampler_chain temperature top_p
        let internal := { internal with sampler := some sampler }
        -- Process the prompt
        let primed := E.llama_decode w.lib internal.ctx tokens
        let w := { w with lib := primed.2 }
        if primed.1 ≠ 0 then
          ⟨-4, some { internal with sampler := none },
            set_error w "Failed to decode prompt",
            [Event.tokenize prompt n_prompt_max, Event.sampler_init sampler,
             Event.decode tokens primed.1, Event.sampler_free], none⟩
        else
          -- Generate tokens
          let r := emit_loop E internal.model internal.ctx sampler max_tokens callback
            user_data max_tokens.toNat 0 internal.cancel_requested w
          -- Cleanup sampler
          ⟨r.n_generated,
            some { internal with sampler := none, cancel_requested := r.cancel_requested },
            r.world,
            [Event.tokenize prompt n_prompt_max, Event.sampler_init sampler,
             Event.decode tokens primed.1] ++ r.trace ++ [Event.sampler_free],
            some r.loop_exit⟩

/-! ## Cancellation and introspection -/

/-- `llama_wrapper_cancel_generate(ctx)`: the handle's object after the call. -/
def llama_wrapper_cancel_generate (ctx : LlamaContext) : LlamaContext :=
  match ctx with
  | none => none
  | some internal => some { internal with cancel_requested := true }

/-- `llama_wrapper_is_model_loaded(ctx)`: the result, and the handle's object after the
call (the function stores nothing into it). -/
def llama_wrapper_is_model_loaded (ctx : LlamaContext) : Bool × LlamaContext :=
  match ctx with
  | none => (false, none)
  | some internal => (internal.model.isSome && internal.ctx.isSome, some internal)

/-- `llama_wrapper_get_model_info(ctx)`: the returned text (the new `g_model_info`), the
world, and the handle's object after the call (the function stores nothing into it). -/
def llama_wrapper_get_model_info {σ : Type} (E : LlamaLib σ) (w : World σ)
    (ctx : LlamaContext) : String × World σ × LlamaContext :=
  match ctx with
  | none => ("\x7b\x7d", { w with g_model_info := "\x7b\x7d" }, none)
  | some internal =>
    if internal.model.isNone then
      ("\x7b\x7d", { w with g_model_info := "\x7b\x7d" }, some internal)
    else if !E.llama_vocab_present internal.model then
      ("\x7b\x7d", { w with g_model_info := "\x7b\x7d" }, some internal)
    else
      let buf := E.snprintf_model_info internal.n_ctx
        (E.llama_vocab_n_tokens internal.model) internal.model_path
      (buf, { w with g_model_info := buf }, some internal)

/-- The handle invariant of the data model: `model` and `ctx` are both present or both
absent, and the `sampler` field is null. -/
def handle_invariant (h : LlamaContextInternal) : Prop :=
  (h.model.isSome = h.ctx.isSome) ∧ h.sampler = none

instance (h : LlamaContextInternal) : Decidable (handle_invariant h) := by
  unfold handle_invariant; infer_instance

/-! ## Names for the stages of a generation -/

/-- The count `llama_tokenize` returns for this handle and prompt (`n_tokens`). -/
def tokenize_count {σ : Type} (E : LlamaLib σ) (internal : LlamaContextInternal)
    (prompt : String) : Int :=
  (E.llama_tokenize internal.model prompt internal.n_ctx).1

/-- The token vector after `tokens.resize(n_tokens)`: the batch of the priming decode. -/
def prompt_tokens {σ : Type} (E : LlamaLib σ) (internal : LlamaContextInternal)
    (prompt : String) : List llama_token :=
  vector_resize (E.llama_tokenize internal.model prompt internal.n_ctx).2
    (E.llama_tokenize internal.model prompt internal.n_ctx).1.toNat

/-- The status the prompt-priming `llama_decode` returns. -/
def prime_status {σ : Type} (E : LlamaLib σ) (w : World σ) (internal : LlamaContextInternal)
    (prompt : String) : Int :=
  (E.llama_decode w.lib internal.ctx (prompt_tokens E internal prompt)).1

/-- The outside state after the prompt-priming `llama_decode`. -/
def primed_lib {σ : Type} (E : LlamaLib σ) (w : World σ) (internal : LlamaContextInternal)
    (prompt : String) : σ :=
  (E.llama_decode w.lib internal.ctx (prompt_tokens E internal prompt)).2

/-- The first token `llama_sampler_sample` yields after priming. -/
def first_token {σ : Type} (E : LlamaLib σ) (w : World σ) (internal : LlamaContextInternal)
    (prompt : String) (temperature top_p : c_float) : llama_token :=
  (E.llama_sampler_sample (primed_lib E w internal prompt)
    (build_sampler_chain temperature top_p) internal.ctx).1

/-- The outside state after the first `llama_sampler_sample`. -/
def first_sampled_lib {σ : Type} (E : LlamaLib σ) (w : World σ)
    (internal : LlamaContextInternal) (prompt : String) (temperature top_p : c_float) : σ :=
  (E.llama_sampler_sample (primed_lib E w internal prompt)
    (build_sampler_chain temperature top_p) internal.ctx).2

/-- The world in which the emit loop starts: error channel cleared (line 165), outside
state as the priming decode left it. -/
def primed_world {σ : Type} (E : LlamaLib σ) (w : World σ) (internal : LlamaContextInternal)
    (prompt : String) : World σ :=
  ⟨"", w.g_model_info, primed_lib E w internal prompt⟩

/-- The world in which the callback receives the first token. -/
def first_callback_world {σ : Type} (E : LlamaLib σ) (w : World σ)
    (internal : LlamaContextInternal) (prompt : String) (temperature top_p : c_float) :
    World σ :=
  ⟨"", w.g_model_info, first_sampled_lib E w internal prompt temperature top_p⟩

/-- The loop variables at an iteration boundary, with the external calls of the passes
made so far. -/
structure LoopState (σ : Type) where
  n_generated : Int
  cancel_requested : Bool
  world : World σ
  trace : List Event

/-- The loop variables at the iteration boundary reached after `k` complete passes
through the body (each ending at `n_generated++`), started from the given variables;
`none` when the loop leaves earlier, through its condition or a `break`. -/
def loop_state_after {σ : Type} (E : LlamaLib σ) (model : Option llama_model)
    (ctx : Option llama_context) (sampler : llama_sampler) (max_tokens : Int)
    (callback : TokenCallback σ) (user_data : Nat) :
    Nat → Int → Bool → World σ → Option (LoopState σ)
  | 0, n_generated, cancel_requested, w => some ⟨n_generated, cancel_requested, w, []⟩
  | k + 1, n_generated, cancel_requested, w =>
    if n_generated < max_tokens then
      match emit_body E model ctx sampler callback user_data cancel_requested w with
      | BodyOutcome.exit _ _ _ _ => none
      | BodyOutcome.next flag w events =>
        match loop_state_after E model ctx sampler max_tokens callback user_data k
            (n_generated + 1) flag w with
        | some s => some { s with trace := events ++ s.trace }
        | none => none
    else none

/-- The emit loop as `llama_wrapper_generate` enters it: counter `0`, flag reset, error
channel cleared, outside state as the priming decode left it, `max_tokens` passes of
fuel. -/
def generate_loop {σ : Type} (E : LlamaLib σ) (w : World σ) (h : LlamaContextInternal)
    (p : String) (max_tokens : Int) (temperature top_p : c_float)
    (callback : TokenCallback σ) (user_data : Nat) : LoopResult σ :=
  emit_loop E h.model h.ctx (build_sampler_chain temperature top_p) max_tokens callback
    user_data max_tokens.toNat 0 false (primed_world E w h p)

/-- The loop variables of `llama_wrapper_generate` at the iteration boundary after `k`
complete passes through the body, `none` when the loop leaves earlier. -/
def generate_state_after {σ : Type} (E : LlamaLib σ) (w : World σ) (h : LlamaContextInternal)
    (p : String) (max_tokens : Int) (temperature top_p : c_float)
    (callback : TokenCallback σ) (user_data : Nat) (k : Nat) : Option (LoopState σ) :=
  loop_state_after E h.model h.ctx (build_sampler_chain temperature top_p) max_tokens callback
    user_data k 0 false (primed_world E w h p)

/-- The trace entry is a `llama_decode` call. -/
def Event.is_decode : Event → Bool
  | Event.decode _ _ => true
  | _ => false

/-- The trace entry is a `llama_sampler_sample` call. -/
def Event.is_sample : Event → Bool
  | Event.sample _ => true
  | _ => false

/-- The trace entry is a callback invocation. -/
def Event.is_callback : Event → Bool
  | Event.callback _ _ => true
  | _ => false

/-- The trace entry is a flag check, that is, the start of a pass through the loop
body. -/
def Event.is_cancel_check : Event → Bool
  | Event.cancel_check _ => true
  | _ => false

/-! ## A scripted library, for evaluating the definitions on concrete inputs -/

/-- A small deterministic stand-in for llama.cpp over the outside state `Nat` (the
number of tokens sampled so far): the tokenizer gives the begin-of-sequence token `1`
and one token per character, and fails when that does not fit the buffer; sampling
replays `script` and then yields the end-of-sequence token `2`; every token's text is
`"t"`, except token `7`, whose text is empty; decoding fails exactly on batches that
contain `bad`; a cancellation from outside arrives once `cancel_at` tokens have been
sampled; loading fails for the path `"missing.gguf"` and context creation for a window
above `4096`. -/
def scriptedLib (script : List llama_token) (bad : llama_token) (cancel_at : Nat) :
    LlamaLib Nat where
  llama_model_load_from_file := fun s path _ =>
    (if path = "missing.gguf" then none else some 1, s)
  llama_init_from_model := fun s _ params =>
    (if params.n_ctx > 4096 then none else some 2, s)
  llama_tokenize := fun _ prompt n_tokens_max =>
    if (prompt.length : Int) + 1 ≤ n_tokens_max then
      ((prompt.length : Int) + 1, 1 :: prompt.toList.map (fun c => (c.toNat : Int)))
    else (-((prompt.length : Int) + 1), [])
  llama_decode := fun s _ batch => (if bad ∈ batch then 1 else 0, s)
  llama_sampler_sample := fun s _ _ => (script.getD s 2, s + 1)
  llama_vocab_is_eog := fun _ token => decide (token = 2)
  llama_token_to_piece := fun _ token => if token = 7 then (0, "") else (1, "t")
  llama_vocab_present := fun model => model.isSome
  llama_vocab_n_tokens := fun _ => 32000
  cancel_arrived := fun s => decide (cancel_at ≤ s)
  snprintf_model_info := fun n_ctx n_vocab path =>
    "n_ctx=" ++ toString n_ctx ++ " n_vocab=" ++ toString n_vocab ++ " path=" ++ path

/-- A handle as `llama_wrapper_load_model` returns it on `scriptedLib`. -/
def loadedHandle : LlamaContextInternal :=
  { model := some 1, ctx := some 2, sampler := none, cancel_requested := false,
    model_path := "m.gguf", n_ctx := 2048 }

/-- A callback that asks to stop on every token it receives. -/
def stopCallback : TokenCallback Nat := some (fun w _ _ => (1, w))

/-- A callback that always asks to continue. -/
def continueCallback : TokenCallback Nat := some (fun w _ _ => (0, w))

/-- A callback that calls `llama_wrapper_generate(NULL, "x", 10, 0.0f, 1.0f, NULL, NULL)`
on every token it receives and then asks to stop. -/
def reentrantCallback : TokenCallback Nat :=
  some (fun w _ _ =>
    (1, (llama_wrapper_generate (scriptedLib [] 0 0) w none (some "x") 10 ⟨0⟩ ⟨0x3F800000⟩
      none 0).world))

/-- The bit pattern of `1.0f`. -/
def one_f : c_float := ⟨0x3F800000⟩

/-- The bit pattern of `0.0f`. -/
def zero_f : c_float := ⟨0⟩

/-- The world the examples start from: a stale error message, step `0`. -/
def staleWorld : World Nat := ⟨"stale error", "", 0⟩

/-! ## Splitting a trace at an event -/

/-- An event that does not occur in the first part of a trace lies in the second. -/
theorem trace_split_left {l1 l2 pre post : List Event} {e : Event}
    (h : l1 ++ l2 = pre ++ e :: post) (hn : e ∉ l1) :
    ∃ mid, pre = l1 ++ mid ∧ l2 = mid ++ e :: post := by
  rcases List.append_eq_append_iff.mp h with ⟨a1, h1, h2⟩ | ⟨c2, h1, h2⟩
  · exact ⟨a1, h1, h2⟩
  · cases c2 with
    | nil => exact ⟨[], by simpa using h1.symm, by simpa using h2.symm⟩
    | cons x c3 =>
      exfalso
      simp only [List.cons_append, List.cons.injEq] at h2
      apply hn
      rw [h1, ← h2.1]
      simp

/-- An event other than the last one of a trace lies before that last one. -/
theorem trace_split_right {l pre post : List Event} {e x : Event}
    (h : l ++ [x] = pre ++ e :: post) (hne : e ≠ x) :
    ∃ rest, post = rest ++ [x] ∧ l = pre ++ e :: rest := by
  rcases List.eq_nil_or_concat post with hp | ⟨rest, y, hp⟩
  · subst hp
    have h1 : l ++ [x] = pre ++ [e] := h
    have := List.append_inj' h1 rfl
    exact absurd (List.singleton_inj.mp this.2).symm hne
  · subst hp
    have h1 : l ++ [x] = (pre ++ e :: rest) ++ [y] := by
      rw [h]; simp
    have := List.append_inj' h1 rfl
    have hxy : x = y := List.singleton_inj.mp this.2
    exact ⟨rest, by rw [hxy]; simp, this.1⟩

/-! ## Properties of the emit loop -/

section EmitLoop

variable {σ : Type} (E : LlamaLib σ) (model : Option llama_model)
  (ctx : Option llama_context) (sampler : llama_sampler) (max_tokens : Int)
  (callback : TokenCallback σ) (user_data : Nat)

/-- The loop when its condition is false. -/
theorem emit_loop_done (fuel : Nat) (n : Int) (c : Bool) (w : World σ)
    (h : ¬ n < max_tokens) :
    emit_loop E model ctx sampler max_tokens callback user_data fuel n c w
      = ⟨n, c, w, [], LoopExit.max_tokens_reached⟩ := by
  unfold emit_loop
  simp [h]

/-- The loop when its condition is true and the body ends at a `break`. -/
theorem emit_loop_exit (fuel : Nat) (n : Int) (c : Bool) (w : World σ)
    (h : n < max_tokens) {x : LoopExit} {c1 : Bool} {w1 : World σ} {ev : List Event}
    (hb : emit_body E model ctx sampler callback user_data c w = BodyOutcome.exit x c1 w1 ev) :
    emit_loop E model ctx sampler max_tokens callback user_data (fuel + 1) n c w
      = ⟨n, c1, w1, ev, x⟩ := by
  rw [emit_loop]
  simp [h, hb]

/-- The loop when its condition is true and the body reaches `n_generated++`. -/
theorem emit_loop_next (fuel : Nat) (n : Int) (c : Bool) (w : World σ)
    (h : n < max_tokens) {c1 : Bool} {w1 : World σ} {ev : List Event}
    (hb : emit_body E model ctx sampler callback user_data c w = BodyOutcome.next c1 w1 ev) :
    emit_loop E model ctx sampler max_tokens callback user_data (fuel + 1) n c w
      = { emit_loop E model ctx sampler max_tokens callback user_data fuel (n + 1) c1 w1 with
          trace := ev ++ (emit_loop E model ctx sampler max_tokens callback user_data
            fuel (n + 1) c1 w1).trace } := by
  rw [emit_loop]
  simp [h, hb]

/-- The callback step makes no flag check and no decode: its events are callback
invocations. -/
theorem emit_token_events (token_len : Int) (token_text : String) (w : World σ) :
    ∀ e ∈ (emit_token callback user_data token_len token_text w).2.2,
      e.is_callback = true := by
  unfold emit_token
  split_ifs
  · cases callback <;> simp [Event.is_callback]
  · simp

/-- The callback step leaves the error channel as it was when the callback does. -/
theorem emit_token_error (hk : callback_keeps_error callback) (token_len : Int)
    (token_text : String) (w : World σ) :
    (emit_token callback user_data token_len token_text w).2.1.g_last_error
      = w.g_last_error := by
  unfold emit_token
  split_ifs
  · cases hc : callback with
    | none => rfl
    | some cb => exact hk cb hc w token_text user_data
  · rfl

/-- A pass through the body taken while a cancellation is pending: it ends at the first
`break`, having made no external call. -/
theorem emit_body_cancel (c : Bool) (w : World σ)
    (hc : (c || E.cancel_arrived w.lib) = true) :
    emit_body E model ctx sampler callback user_data c w
      = BodyOutcome.exit LoopExit.cancelled true w [Event.cancel_check true] := by
  unfold emit_body
  simp only [hc, if_true]

/-- A pass through the body that ends at a `break`: which `break`s exist, what each
leaves in the error channel, and where the pass observed the flag. -/
theorem emit_body_exit (c : Bool) (w : World σ) {x : LoopExit} {c1 : Bool} {w1 : World σ}
    {ev : List Event}
    (hb : emit_body E model ctx sampler callback user_data c w = BodyOutcome.exit x c1 w1 ev) :
    x ≠ LoopExit.out_of_fuel ∧ x ≠ LoopExit.max_tokens_reached
    ∧ ((x = LoopExit.decode_failed →
        w1.g_last_error = "Failed to decode generated token")
      ∧ (callback_keeps_error callback → x ≠ LoopExit.decode_failed →
        w1.g_last_error = w.g_last_error))
    ∧ (x = LoopExit.cancelled → ev = [Event.cancel_check true] ∧ c1 = true ∧ w1 = w)
    ∧ (x ≠ LoopExit.cancelled → Event.cancel_check true ∉ ev ∧ c1 = false)
    ∧ c1 = (c || E.cancel_arrived w.lib) := by
  have hev := emit_token_events callback user_data
  have herr := emit_token_error callback user_data
  have hcc : ∀ (l : Int) (t : String) (w2 : World σ),
      Event.cancel_check true ∉ (emit_token callback user_data l t w2).2.2 :=
    fun l t w2 hmem => by simpa [Event.is_callback] using hev l t w2 _ hmem
  unfold emit_body at hb
  simp only at hb
  split_ifs at hb with h1 h2 h3 h4
  all_goals
    simp only [BodyOutcome.exit.injEq, reduceCtorEq] at hb
  all_goals
    obtain ⟨rfl, rfl, rfl, rfl⟩ := hb
  · simpa using h1
  · simpa [set_error] using h1
  · refine ⟨by simp, by simp, ⟨by simp, fun hk _ => ?_⟩, by simp, ?_, rfl⟩
    · rw [herr hk]
    · intro _
      exact ⟨by simp [hcc], by simpa using h1⟩
  · refine ⟨by simp, by simp, ⟨fun _ => rfl, fun _ hne => absurd rfl hne⟩, by simp, ?_, rfl⟩
    intro _
    exact ⟨by simp [hcc], by simpa using h1⟩

/-- A pass through the body that ends at a `break`, seen from its decodes: the
decode-failure `break` is taken right after a one-token decode that returned non-zero,
the last call of the pass; the other `break`s are taken in passes without any decode. -/
theorem emit_body_exit_decode (c : Bool) (w : World σ) {x : LoopExit} {c1 : Bool}
    {w1 : World σ} {ev : List Event}
    (hb : emit_body E model ctx sampler callback user_data c w = BodyOutcome.exit x c1 w1 ev) :
    (x = LoopExit.decode_failed →
      ∃ pre token status, ev = pre ++ [Event.decode [token] status] ∧ status ≠ 0
        ∧ ∀ batch st, Event.decode batch st ∉ pre)
    ∧ (x ≠ LoopExit.decode_failed → ∀ batch st, Event.decode batch st ∉ ev) := by
  have hev := emit_token_events callback user_data
  have hdd : ∀ (l : Int) (t : String) (w2 : World σ) (batch : List llama_token) (st : Int),
      Event.decode batch st ∉ (emit_token callback user_data l t w2).2.2 :=
    fun l t w2 batch st hmem => by simpa [Event.is_callback] using hev l t w2 _ hmem
  unfold emit_body at hb
  simp only at hb
  split_ifs at hb with h1 h2 h3 h4
  all_goals
    simp only [BodyOutcome.exit.injEq, reduceCtorEq] at hb
  all_goals
    obtain ⟨rfl, rfl, rfl, rfl⟩ := hb
  · simp
  · simp
  · simp [hdd]
  · refine ⟨fun _ => ⟨_, _, _, rfl, h4, ?_⟩, fun hne => absurd rfl hne⟩
    intro batch st
    simp [hdd]

/-- A pass through the body that reaches `n_generated++`: the flag was observed clear,
the one decode of the pass returned `0`, and the error channel is untouched when the
callback leaves it alone. -/
theorem emit_body_next (c : Bool) (w : World σ) {c1 : Bool} {w1 : World σ}
    {ev : List Event}
    (hb : emit_body E model ctx sampler callback user_data c w = BodyOutcome.next c1 w1 ev) :
    (callback_keeps_error callback → w1.g_last_error = w.g_last_error)
    ∧ Event.cancel_check true ∉ ev ∧ c1 = false
    ∧ c1 = (c || E.cancel_arrived w.lib)
    ∧ (∀ batch st, Event.decode batch st ∈ ev → st = 0) := by
  have hev := emit_token_events callback user_data
  have herr := emit_token_error callback user_data
  have hcc : ∀ (l : Int) (t : String) (w2 : World σ),
      Event.cancel_check true ∉ (emit_token callback user_data l t w2).2.2 :=
    fun l t w2 hmem => by simpa [Event.is_callback] using hev l t w2 _ hmem
  have hdd : ∀ (l : Int) (t : String) (w2 : World σ) (batch : List llama_token) (st : Int),
      Event.decode batch st ∉ (emit_token callback user_data l t w2).2.2 :=
    fun l t w2 batch st hmem => by simpa [Event.is_callback] using hev l t w2 _ hmem
  unfold emit_body at hb
  simp only at hb
  split_ifs at hb with h1 h2 h3 h4
  simp only [BodyOutcome.next.injEq] at hb
  obtain ⟨rfl, rfl, rfl⟩ := hb
  refine ⟨fun hk => ?_, by simp [hcc], by simpa using h1, rfl, ?_⟩
  · simp only
    rw [herr hk]
  · intro batch st hmem
    simp only [List.mem_append, List.mem_cons, List.mem_singleton, reduceCtorEq,
      Event.decode.injEq, false_or, List.not_mem_nil, or_false] at hmem
    rcases hmem with hmem | hmem
    · exact absurd hmem (hdd _ _ _ _ _)
    · rw [hmem.2]
      simpa using h4

/-- With at least `max_tokens - n_generated` passes of fuel the loop never runs out of
fuel: it leaves through the loop condition or one of the four `break`s. -/
theorem emit_loop_never_out_of_fuel (fuel : Nat) (n : Int) (c : Bool) (w : World σ)
    (hfuel : (max_tokens - n).toNat ≤ fuel) :
    (emit_loop E model ctx sampler max_tokens callback user_data fuel n c w).loop_exit
      ≠ LoopExit.out_of_fuel := by
  induction fuel generalizing n c w with
  | zero =>
    rw [emit_loop_done E model ctx sampler max_tokens callback user_data 0 n c w (by omega)]
    simp
  | succ k ih =>
    by_cases h : n < max_tokens
    · cases hb : emit_body E model ctx sampler callback user_data c w with
      | exit x c1 w1 ev =>
        rw [emit_loop_exit E model ctx sampler max_tokens callback user_data k n c w h hb]
        exact (emit_body_exit E model ctx sampler callback user_data c w hb).1
      | next c1 w1 ev =>
        rw [emit_loop_next E model ctx sampler max_tokens callback user_data k n c w h hb]
        exact ih (n + 1) c1 w1 (by omega)
    · rw [emit_loop_done E model ctx sampler max_tokens callback user_data _ n c w h]
      simp

/-- More fuel than `max_tokens - n_generated` changes nothing: the loop's result does
not depend on the fuel once there is enough of it. -/
theorem emit_loop_fuel_irrelevant (fuel extra : Nat) (n : Int) (c : Bool) (w : World σ)
    (hfuel : (max_tokens - n).toNat ≤ fuel) :
    emit_loop E model ctx sampler max_tokens callback user_data (fuel + extra) n c w
      = emit_loop E model ctx sampler max_tokens callback user_data fuel n c w := by
  induction fuel generalizing n c w with
  | zero =>
    rw [emit_loop_done E model ctx sampler max_tokens callback user_data 0 n c w (by omega),
      emit_loop_done E model ctx sampler max_tokens callback user_data _ n c w (by omega)]
  | succ k ih =>
    by_cases h : n < max_tokens
    · have hk : k + 1 + extra = (k + extra) + 1 := by omega
      rw [hk]
      cases hb : emit_body E model ctx sampler callback user_data c w with
      | exit x c1 w1 ev =>
        rw [emit_loop_exit E model ctx sampler max_tokens callback user_data k n c w h hb,
          emit_loop_exit E model ctx sampler max_tokens callback user_data _ n c w h hb]
      | next c1 w1 ev =>
        rw [emit_loop_next E model ctx sampler max_tokens callback user_data k n c w h hb,
          emit_loop_next E model ctx sampler max_tokens callback user_data _ n c w h hb,
          ih (n + 1) c1 w1 (by omega)]
    · rw [emit_loop_done E model ctx sampler max_tokens callback user_data _ n c w h,
        emit_loop_done E model ctx sampler max_tokens callback user_data _ n c w h]

/-- The counter the loop returns: it never decreases, it is at most `max_tokens` unless
the loop left it as it was, and a `break` leaves it strictly below `max_tokens`. -/
theorem emit_loop_count (fuel : Nat) (n : Int) (c : Bool) (w : World σ) :
    n ≤ (emit_loop E model ctx sampler max_tokens callback user_data fuel n c w).n_generated
    ∧ ((emit_loop E model ctx sampler max_tokens callback user_data fuel n c w).n_generated
        ≤ max_tokens
      ∨ (emit_loop E model ctx sampler max_tokens callback user_data fuel n c w).n_generated
        = n)
    ∧ ((emit_loop E model ctx sampler max_tokens callback user_data fuel n c w).loop_exit
        ≠ LoopExit.max_tokens_reached →
      (emit_loop E model ctx sampler max_tokens callback user_data fuel n c w).n_generated
        < max_tokens) := by
  induction fuel generalizing n c w with
  | zero =>
    by_cases h : n < max_tokens
    · unfold emit_loop
      simp [h]
    · rw [emit_loop_done E model ctx sampler max_tokens callback user_data 0 n c w h]
      simp
  | succ k ih =>
    by_cases h : n < max_tokens
    · cases hb : emit_body E model ctx sampler callback user_data c w with
      | exit x c1 w1 ev =>
        rw [emit_loop_exit E model ctx sampler max_tokens callback user_data k n c w h hb]
        exact ⟨le_refl _, Or.inr rfl, fun _ => h⟩
      | next c1 w1 ev =>
        rw [emit_loop_next E model ctx sampler max_tokens callback user_data k n c w h hb]
        obtain ⟨h1, h2, h3⟩ := ih (n + 1) c1 w1
        exact ⟨by simp only; omega, Or.inl (by simp only; omega), h3⟩
    · rw [emit_loop_done E model ctx sampler max_tokens callback user_data _ n c w h]
      simp

/-- The error channel after the loop, for any callback: leaving through the failed
one-token decode leaves that decode's message. -/
theorem emit_loop_error_decode_failed (fuel : Nat) (n : Int) (c : Bool) (w : World σ)
    (hx : (emit_loop E model ctx sampler max_tokens callback user_data fuel n c w).loop_exit
      = LoopExit.decode_failed) :
    (emit_loop E model ctx sampler max_tokens callback user_data fuel n c w).world.g_last_error
      = "Failed to decode generated token" := by
  induction fuel generalizing n c w with
  | zero =>
    by_cases h : n < max_tokens
    · unfold emit_loop at hx
      simp [h] at hx
    · rw [emit_loop_done E model ctx sampler max_tokens callback user_data 0 n c w h] at hx
      simp at hx
  | succ k ih =>
    by_cases h : n < max_tokens
    · cases hb : emit_body E model ctx sampler callback user_data c w with
      | exit x c1 w1 ev =>
        rw [emit_loop_exit E model ctx sampler max_tokens callback user_data k n c w h hb]
          at hx ⊢
        exact (emit_body_exit E model ctx sampler callback user_data c w hb).2.2.1.1 hx
      | next c1 w1 ev =>
        rw [emit_loop_next E model ctx sampler max_tokens callback user_data k n c w h hb]
          at hx ⊢
        exact ih (n + 1) c1 w1 hx
    · rw [emit_loop_done E model ctx sampler max_tokens callback user_data _ n c w h] at hx
      simp at hx

/-- The error channel after the loop, for a callback that leaves the channel alone: the
loop writes it exactly when it leaves through the failed one-token decode; through every
other exit it is what it was on entry. -/
theorem emit_loop_error (hk : callback_keeps_error callback) (fuel : Nat) (n : Int)
    (c : Bool) (w : World σ) :
    (emit_loop E model ctx sampler max_tokens callback user_data fuel n c w).world.g_last_error
      = (if (emit_loop E model ctx sampler max_tokens callback user_data fuel n c w).loop_exit
            = LoopExit.decode_failed
         then "Failed to decode generated token" else w.g_last_error) := by
  induction fuel generalizing n c w with
  | zero =>
    by_cases h : n < max_tokens
    · unfold emit_loop
      simp [h]
    · rw [emit_loop_done E model ctx sampler max_tokens callback user_data 0 n c w h]
      simp
  | succ k ih =>
    by_cases h : n < max_tokens
    · cases hb : emit_body E model ctx sampler callback user_data c w with
      | exit x c1 w1 ev =>
        rw [emit_loop_exit E model ctx sampler max_tokens callback user_data k n c w h hb]
        have hx := (emit_body_exit E model ctx sampler callback user_data c w hb).2.2.1
        by_cases hd : x = LoopExit.decode_failed
        · simp only [hd, if_true]
          exact hx.1 hd
        · simp only [hd, if_false]
          exact hx.2 hk hd
      | next c1 w1 ev =>
        rw [emit_loop_next E model ctx sampler max_tokens callback user_data k n c w h hb]
        have h1 := ih (n + 1) c1 w1
        rw [(emit_body_next E model ctx sampler callback user_data c w hb).1 hk] at h1
        exact h1
    · rw [emit_loop_done E model ctx sampler max_tokens callback user_data _ n c w h]
      simp

/-- A decode that returned non-zero inside the loop is the last external call of the
loop, and the loop then leaves through the decode-failure `break`. -/
theorem emit_loop_decode_last (fuel : Nat) (n : Int) (c : Bool) (w : World σ)
    (pre post : List Event) (batch : List llama_token) (st : Int) (hst : st ≠ 0)
    (ht : (emit_loop E model ctx sampler max_tokens callback user_data fuel n c w).trace
      = pre ++ Event.decode batch st :: post) :
    post = []
    ∧ (emit_loop E model ctx sampler max_tokens callback user_data fuel n c w).loop_exit
        = LoopExit.decode_failed := by
  induction fuel generalizing n c w pre with
  | zero =>
    by_cases h : n < max_tokens
    · unfold emit_loop at ht
      simp [h] at ht
    · rw [emit_loop_done E model ctx sampler max_tokens callback user_data 0 n c w h] at ht
      simp at ht
  | succ k ih =>
    by_cases h : n < max_tokens
    · cases hb : emit_body E model ctx sampler callback user_data c w with
      | exit x c1 w1 ev =>
        rw [emit_loop_exit E model ctx sampler max_tokens callback user_data k n c w h hb]
          at ht ⊢
        simp only at ht ⊢
        have hx := emit_body_exit_decode E model ctx sampler callback user_data c w hb
        by_cases hd : x = LoopExit.decode_failed
        · obtain ⟨pre0, token, status, hev, _, hnone⟩ := hx.1 hd
          rw [hev] at ht
          obtain ⟨mid, _, hmid⟩ := trace_split_left ht (hnone batch st)
          cases mid with
          | nil =>
            simp only [List.nil_append, List.cons.injEq] at hmid
            exact ⟨hmid.2.symm ▸ rfl, hd⟩
          | cons e mid1 => simp at hmid
        · exfalso
          apply hx.2 hd batch st
          rw [ht]
          simp
      | next c1 w1 ev =>
        rw [emit_loop_next E model ctx sampler max_tokens callback user_data k n c w h hb]
          at ht ⊢
        simp only at ht ⊢
        have hn := (emit_body_next E model ctx sampler callback user_data c w hb).2.2.2.2
        have hnot : Event.decode batch st ∉ ev := fun hmem => hst (hn batch st hmem)
        obtain ⟨mid, _, hrest⟩ := trace_split_left ht hnot
        exact ih (n + 1) c1 w1 mid hrest
    · rw [emit_loop_done E model ctx sampler max_tokens callback user_data _ n c w h] at ht
      simp at ht

/-- The loop leaves through the decode-failure `break` only with a one-token decode
that returned non-zero as its last external call. -/
theorem emit_loop_decode_failed (fuel : Nat) (n : Int) (c : Bool) (w : World σ)
    (hx : (emit_loop E model ctx sampler max_tokens callback user_data fuel n c w).loop_exit
      = LoopExit.decode_failed) :
    ∃ pre token status, status ≠ 0
      ∧ (emit_loop E model ctx sampler max_tokens callback user_data fuel n c w).trace
        = pre ++ [Event.decode [token] status] := by
  induction fuel generalizing n c w with
  | zero =>
    by_cases h : n < max_tokens
    · unfold emit_loop at hx
      simp [h] at hx
    · rw [emit_loop_done E model ctx sampler max_tokens callback user_data 0 n c w h] at hx
      simp at hx
  | succ k ih =>
    by_cases h : n < max_tokens
    · cases hb : emit_body E model ctx sampler callback user_data c w with
      | exit x c1 w1 ev =>
        rw [emit_loop_exit E model ctx sampler max_tokens callback user_data k n c w h hb]
          at hx ⊢
        simp only at hx ⊢
        obtain ⟨pre0, token, status, hev, hst, _⟩ :=
          (emit_body_exit_decode E model ctx sampler callback user_data c w hb).1 hx
        exact ⟨pre0, token, status, hst, hev⟩
      | next c1 w1 ev =>
        rw [emit_loop_next E model ctx sampler max_tokens callback user_data k n c w h hb]
          at hx ⊢
        simp only at hx ⊢
        obtain ⟨pre0, token, status, hst, htr⟩ := ih (n + 1) c1 w1 hx
        exact ⟨ev ++ pre0, token, status, hst, by rw [htr, List.append_assoc]⟩
    · rw [emit_loop_done E model ctx sampler max_tokens callback user_data _ n c w h] at hx
      simp at hx

/-- After `k` complete passes the counter has advanced by `k`. -/
theorem loop_state_after_count (k : Nat) (n : Int) (c : Bool) (w : World σ)
    {s : LoopState σ}
    (hs : loop_state_after E model ctx sampler max_tokens callback user_data k n c w
      = some s) :
    s.n_generated = n + k := by
  induction k generalizing n c w s with
  | zero =>
    simp only [loop_state_after, Option.some.injEq] at hs
    subst hs
    simp
  | succ j ih =>
    unfold loop_state_after at hs
    by_cases h : n < max_tokens
    · simp only [h, if_true] at hs
      cases hb : emit_body E model ctx sampler callback user_data c w with
      | exit x c1 w1 ev => simp [hb] at hs
      | next c1 w1 ev =>
        simp only [hb] at hs
        cases hr : loop_state_after E model ctx sampler max_tokens callback user_data j
            (n + 1) c1 w1 with
        | none => simp [hr] at hs
        | some s1 =>
          simp only [hr, Option.some.injEq] at hs
          subst hs
          have := ih (n + 1) c1 w1 hr
          simp only [this]
          push_cast
          ring
    · simp [h] at hs

/-- A cancellation that has arrived when the loop reaches the iteration boundary after
`k` complete passes stops the loop at that boundary: the flag check there is the last
call of the loop, and the loop returns the variables of that boundary. -/
theorem emit_loop_cancel_at (k fuel : Nat) (n : Int) (c : Bool) (w : World σ)
    {s : LoopState σ}
    (hs : loop_state_after E model ctx sampler max_tokens callback user_data k n c w
      = some s)
    (hlt : s.n_generated < max_tokens)
    (harr : (s.cancel_requested || E.cancel_arrived s.world.lib) = true)
    (hfuel : k < fuel) :
    emit_loop E model ctx sampler max_tokens callback user_data fuel n c w
      = ⟨s.n_generated, true, s.world, s.trace ++ [Event.cancel_check true],
          LoopExit.cancelled⟩ := by
  induction k generalizing fuel n c w s with
  | zero =>
    simp only [loop_state_after, Option.some.injEq] at hs
    subst hs
    obtain ⟨f, rfl⟩ : ∃ f, fuel = f + 1 := ⟨fuel - 1, by omega⟩
    rw [emit_loop_exit E model ctx sampler max_tokens callback user_data f n c w hlt
      (emit_body_cancel E model ctx sampler callback user_data c w harr)]
    simp
  | succ j ih =>
    obtain ⟨f, rfl⟩ : ∃ f, fuel = f + 1 := ⟨fuel - 1, by omega⟩
    unfold loop_state_after at hs
    by_cases h : n < max_tokens
    · simp only [h, if_true] at hs
      cases hb : emit_body E model ctx sampler callback user_data c w with
      | exit x c1 w1 ev => simp [hb] at hs
      | next c1 w1 ev =>
        simp only [hb] at hs
        cases hr : loop_state_after E model ctx sampler max_tokens callback user_data j
            (n + 1) c1 w1 with
        | none => simp [hr] at hs
        | some s1 =>
          simp only [hr, Option.some.injEq] at hs
          subst hs
          rw [emit_loop_next E model ctx sampler max_tokens callback user_data f n c w h hb,
            ih f (n + 1) c1 w1 hr hlt harr (by omega)]
          simp
    · simp [h] at hs

/-- A flag check that observes the flag set is the last external call of the loop, and
the loop then leaves through the cancellation `break`. -/
theorem emit_loop_cancel_last (fuel : Nat) (n : Int) (c : Bool) (w : World σ)
    (pre post : List Event)
    (ht : (emit_loop E model ctx sampler max_tokens callback user_data fuel n c w).trace
      = pre ++ Event.cancel_check true :: post) :
    post = []
    ∧ (emit_loop E model ctx sampler max_tokens callback user_data fuel n c w).loop_exit
        = LoopExit.cancelled := by
  induction fuel generalizing n c w pre with
  | zero =>
    by_cases h : n < max_tokens
    · unfold emit_loop at ht
      simp [h] at ht
    · rw [emit_loop_done E model ctx sampler max_tokens callback user_data 0 n c w h] at ht
      simp at ht
  | succ k ih =>
    by_cases h : n < max_tokens
    · cases hb : emit_body E model ctx sampler callback user_data c w with
      | exit x c1 w1 ev =>
        rw [emit_loop_exit E model ctx sampler max_tokens callback user_data k n c w h hb] at ht ⊢
        simp only at ht ⊢
        have hx := emit_body_exit E model ctx sampler callback user_data c w hb
        by_cases hc : x = LoopExit.cancelled
        · have hev := (hx.2.2.2.1 hc).1
          rw [hev] at ht
          cases pre with
          | nil => simp at ht; exact ⟨ht.symm ▸ rfl, hc⟩
          | cons e pre1 => simp at ht
        · exfalso
          apply (hx.2.2.2.2.1 hc).1
          rw [ht]
          simp
      | next c1 w1 ev =>
        rw [emit_loop_next E model ctx sampler max_tokens callback user_data k n c w h hb] at ht ⊢
        simp only at ht ⊢
        have hn := (emit_body_next E model ctx sampler callback user_data c w hb).2.1
        obtain ⟨as, hpre, hrest⟩ : ∃ as, pre = ev ++ as
            ∧ (emit_loop E model ctx sampler max_tokens callback user_data k (n + 1) c1 w1).trace
              = as ++ Event.cancel_check true :: post := by
          rcases List.append_eq_append_iff.mp ht with ⟨a1, h1, h2⟩ | ⟨c2, h1, h2⟩
          · exact ⟨a1, h1, h2⟩
          · cases c2 with
            | nil => exact ⟨[], by simpa using h1.symm, by simpa using h2.symm⟩
            | cons e c3 =>
              exfalso
              simp only [List.cons_append, List.cons.injEq] at h2
              apply hn
              rw [h1, ← h2.1]
              simp
        exact ih (n + 1) c1 w1 as hrest
    · rw [emit_loop_done E model ctx sampler max_tokens callback user_data _ n c w h] at ht
      simp at ht

/-- The loop leaves through the cancellation `break` only with a flag check that
observed the flag as its last external call, and it leaves the flag set. -/
theorem emit_loop_cancelled (fuel : Nat) (n : Int) (c : Bool) (w : World σ)
    (hx : (emit_loop E model ctx sampler max_tokens callback user_data fuel n c w).loop_exit
      = LoopExit.cancelled) :
    (∃ pre, (emit_loop E model ctx sampler max_tokens callback user_data fuel n c w).trace
      = pre ++ [Event.cancel_check true])
    ∧ (emit_loop E model ctx sampler max_tokens callback user_data fuel n c w).cancel_requested
        = true := by
  induction fuel generalizing n c w with
  | zero =>
    by_cases h : n < max_tokens
    · unfold emit_loop at hx
      simp [h] at hx
    · rw [emit_loop_done E model ctx sampler max_tokens callback user_data 0 n c w h] at hx
      simp at hx
  | succ k ih =>
    by_cases h : n < max_tokens
    · cases hb : emit_body E model ctx sampler callback user_data c w with
      | exit x c1 w1 ev =>
        rw [emit_loop_exit E model ctx sampler max_tokens callback user_data k n c w h hb] at hx ⊢
        simp only at hx ⊢
        have hx1 := (emit_body_exit E model ctx sampler callback user_data c w hb).2.2.2.1 hx
        exact ⟨⟨[], by simp [hx1.1]⟩, hx1.2.1⟩
      | next c1 w1 ev =>
        rw [emit_loop_next E model ctx sampler max_tokens callback user_data k n c w h hb] at hx ⊢
        simp only at hx ⊢
        obtain ⟨⟨pre, hpre⟩, hc⟩ := ih (n + 1) c1 w1 hx
        exact ⟨⟨ev ++ pre, by rw [hpre, List.append_assoc]⟩, hc⟩
    · rw [emit_loop_done E model ctx sampler max_tokens callback user_data _ n c w h] at hx
      simp at hx

/-- When no cancellation arrives from outside and the loop is entered with the flag
clear, no flag check observes the flag set. -/
theorem emit_loop_no_cancel (harr : ∀ s, E.cancel_arrived s = false) (fuel : Nat) (n : Int)
    (w : World σ) :
    Event.cancel_check true
      ∉ (emit_loop E model ctx sampler max_tokens callback user_data fuel n false w).trace := by
  induction fuel generalizing n w with
  | zero =>
    by_cases h : n < max_tokens
    · unfold emit_loop
      simp [h]
    · rw [emit_loop_done E model ctx sampler max_tokens callback user_data 0 n false w h]
      simp
  | succ k ih =>
    by_cases h : n < max_tokens
    · cases hb : emit_body E model ctx sampler callback user_data false w with
      | exit x c1 w1 ev =>
        rw [emit_loop_exit E model ctx sampler max_tokens callback user_data k n false w h hb]
        have hx := emit_body_exit E model ctx sampler callback user_data false w hb
        have hc1 : c1 = false := by rw [hx.2.2.2.2.2, harr]; rfl
        have hne : x ≠ LoopExit.cancelled := by
          intro hc
          have := (hx.2.2.2.1 hc).2.1
          rw [hc1] at this
          exact Bool.false_ne_true this
        exact (hx.2.2.2.2.1 hne).1
      | next c1 w1 ev =>
        rw [emit_loop_next E model ctx sampler max_tokens callback user_data k n false w h hb]
        have hn := emit_body_next E model ctx sampler callback user_data false w hb
        simp only [List.mem_append, not_or]
        refine ⟨hn.2.1, ?_⟩
        rw [hn.2.2.1]
        exact ih (n + 1) w1
    · rw [emit_loop_done E model ctx sampler max_tokens callback user_data _ n false w h]
      simp

end EmitLoop

/-! ## llama_wrapper_generate, stage by stage -/

section Generate

variable {σ : Type} (E : LlamaLib σ) (w : World σ) (h : LlamaContextInternal) (p : String)
  (max_tokens : Int) (temperature top_p : c_float) (callback : TokenCallback σ)
  (user_data : Nat)

/-- The call with a null handle. -/
theorem generate_null_handle (prompt : Option String) :
    llama_wrapper_generate E w none prompt max_tokens temperature top_p callback user_data
      = ⟨-1, none, set_error w "Context is null", [], none⟩ := by
  rfl

/-- The call with a handle and a null prompt. -/
theorem generate_null_prompt :
    llama_wrapper_generate E w (some h) none max_tokens temperature top_p callback user_data
      = ⟨-2, some h, set_error w "Prompt is null", [], none⟩ := by
  rfl

/-- The call when tokenization fails. -/
theorem generate_tokenize_failed (htok : tokenize_count E h p < 0) :
    llama_wrapper_generate E w (some h) (some p) max_tokens temperature top_p callback
        user_data
      = ⟨-3, some { h with cancel_requested := false },
          set_error (clear_error w) "Failed to tokenize prompt",
          [Event.tokenize p h.n_ctx], none⟩ := by
  unfold tokenize_count at htok
  simp [llama_wrapper_generate, htok]

/-- The call when the priming decode fails. -/
theorem generate_prime_failed (htok : 0 ≤ tokenize_count E h p)
    (hprime : prime_status E w h p ≠ 0) :
    llama_wrapper_generate E w (some h) (some p) max_tokens temperature top_p callback
        user_data
      = ⟨-4, some { h with cancel_requested := false, sampler := none },
          set_error ⟨"", w.g_model_info, primed_lib E w h p⟩ "Failed to decode prompt",
          [Event.tokenize p h.n_ctx,
           Event.sampler_init (build_sampler_chain temperature top_p),
           Event.decode (prompt_tokens E h p) (prime_status E w h p), Event.sampler_free],
          none⟩ := by
  unfold tokenize_count at htok
  unfold prime_status prompt_tokens at hprime
  simp [llama_wrapper_generate, not_lt.mpr htok, clear_error, hprime, prime_status,
    prompt_tokens, primed_lib]

/-- The call when tokenization and the priming decode succeed: the emit loop runs and
its counter is returned. -/
theorem generate_loop_path (htok : 0 ≤ tokenize_count E h p)
    (hprime : prime_status E w h p = 0) :
    llama_wrapper_generate E w (some h) (some p) max_tokens temperature top_p callback
        user_data
      = ⟨(generate_loop E w h p max_tokens temperature top_p callback user_data).n_generated,
          some { h with
            sampler := none,
            cancel_requested :=
              (generate_loop E w h p max_tokens temperature top_p callback
                user_data).cancel_requested },
          (generate_loop E w h p max_tokens temperature top_p callback user_data).world,
          [Event.tokenize p h.n_ctx,
           Event.sampler_init (build_sampler_chain temperature top_p),
           Event.decode (prompt_tokens E h p) 0]
            ++ (generate_loop E w h p max_tokens temperature top_p callback user_data).trace
            ++ [Event.sampler_free],
          some (generate_loop E w h p max_tokens temperature top_p callback
            user_data).loop_exit⟩ := by
  unfold tokenize_count at htok
  unfold prime_status prompt_tokens at hprime
  simp [llama_wrapper_generate, not_lt.mpr htok, clear_error, hprime, generate_loop,
    prompt_tokens, primed_lib, primed_world]

/-- `llama_wrapper_generate` gives its loop enough fuel: the loop leaves through its
condition or one of its `break`s. -/
theorem generate_never_out_of_fuel :
    (llama_wrapper_generate E w (some h) (some p) max_tokens temperature top_p callback
      user_data).loop_exit ≠ some LoopExit.out_of_fuel := by
  by_cases htok : 0 ≤ tokenize_count E h p
  · by_cases hprime : prime_status E w h p = 0
    · rw [generate_loop_path E w h p max_tokens temperature top_p callback user_data htok
        hprime]
      simp only [ne_eq, Option.some.injEq]
      exact emit_loop_never_out_of_fuel E _ _ _ max_tokens callback user_data _ 0 _ _
        (by omega)
    · rw [generate_prime_failed E w h p max_tokens temperature top_p callback user_data htok
        hprime]
      simp
  · rw [generate_tokenize_failed E w h p max_tokens temperature top_p callback user_data
      (by omega)]
    simp

/-- The counter of the loop as `llama_wrapper_generate` runs it lies between `0` and
`max (max_tokens, 0)`. -/
theorem generate_loop_count :
    0 ≤ (generate_loop E w h p max_tokens temperature top_p callback user_data).n_generated
    ∧ (generate_loop E w h p max_tokens temperature top_p callback user_data).n_generated
        ≤ max max_tokens 0 := by
  obtain ⟨h1, h2, _⟩ := emit_loop_count E h.model h.ctx (build_sampler_chain temperature top_p)
    max_tokens callback user_data max_tokens.toNat 0 false (primed_world E w h p)
  refine ⟨h1, ?_⟩
  rw [le_max_iff]
  rcases h2 with h2 | h2
  · exact Or.inl h2
  · exact Or.inr (le_of_eq h2)

/-- The error channel after the loop as `llama_wrapper_generate` runs it, for a callback
that leaves the channel alone. -/
theorem generate_loop_error (hk : callback_keeps_error callback) :
    (generate_loop E w h p max_tokens temperature top_p callback user_data).world.g_last_error
      = (if (generate_loop E w h p max_tokens temperature top_p callback user_data).loop_exit
            = LoopExit.decode_failed
         then "Failed to decode generated token" else "") :=
  emit_loop_error E h.model h.ctx (build_sampler_chain temperature top_p) max_tokens callback
    user_data hk max_tokens.toNat 0 false (primed_world E w h p)

/-- A trace entry of the call that precedes the loop is neither a flag check nor a
decode that returned non-zero, and the release of the sampler that follows the loop is
neither: splitting the call's trace at such an entry splits the loop's trace there. -/
theorem generate_trace_split (l pre post : List Event) (batch : List llama_token) (e : Event)
    (he : e = Event.cancel_check true ∨ ∃ b st, st ≠ 0 ∧ e = Event.decode b st)
    (ht : [Event.tokenize p h.n_ctx,
           Event.sampler_init (build_sampler_chain temperature top_p),
           Event.decode batch 0] ++ l ++ [Event.sampler_free] = pre ++ e :: post) :
    ∃ mid rest, post = rest ++ [Event.sampler_free] ∧ l = mid ++ e :: rest := by
  rw [List.append_assoc] at ht
  have h1 : e ∉ [Event.tokenize p h.n_ctx,
      Event.sampler_init (build_sampler_chain temperature top_p), Event.decode batch 0] := by
    rcases he with rfl | ⟨b, st, hst, rfl⟩
    · simp
    · simp only [List.mem_cons, reduceCtorEq, Event.decode.injEq, List.mem_singleton,
        List.not_mem_nil, or_false, false_or, not_and]
      intro _ h0
      exact hst h0
  have h2 : e ≠ Event.sampler_free := by
    rcases he with rfl | ⟨b, st, _, rfl⟩ <;> simp
  obtain ⟨mid, _, hmid⟩ := trace_split_left ht h1
  obtain ⟨rest, hpost, hloop⟩ := trace_split_right hmid h2
  exact ⟨mid, rest, hpost, hloop⟩

end Generate

/-! ## The claims -/

/-- C1. The return value of `llama_wrapper_generate` is decided by the first failing
stage: `-1` for a null handle whatever the prompt; otherwise `-2` for a null prompt;
otherwise `-3` when tokenization returns a negative count; otherwise `-4` when the
priming decode returns non-zero; in every remaining case a non-negative integer, the
loop having left through its condition or one of its `break`s. -/
theorem generate_return_value {σ : Type} (E : LlamaLib σ) (w : World σ)
    (max_tokens : Int) (temperature top_p : c_float) (callback : TokenCallback σ)
    (user_data : Nat) :
    (∀ prompt : Option String,
      (llama_wrapper_generate E w none prompt max_tokens temperature top_p callback
        user_data).ret = -1)
    ∧ (∀ h : LlamaContextInternal,
      (llama_wrapper_generate E w (some h) none max_tokens temperature top_p callback
        user_data).ret = -2)
    ∧ (∀ (h : LlamaContextInternal) (p : String), tokenize_count E h p < 0 →
      (llama_wrapper_generate E w (some h) (some p) max_tokens temperature top_p callback
        user_data).ret = -3)
    ∧ (∀ (h : LlamaContextInternal) (p : String), 0 ≤ tokenize_count E h p →
      prime_status E w h p ≠ 0 →
      (llama_wrapper_generate E w (some h) (some p) max_tokens temperature top_p callback
        user_data).ret = -4)
    ∧ (∀ (h : LlamaContextInternal) (p : String), 0 ≤ tokenize_count E h p →
      prime_status E w h p = 0 →
      0 ≤ (llama_wrapper_generate E w (some h) (some p) max_tokens temperature top_p
        callback user_data).ret
      ∧ (llama_wrapper_generate E w (some h) (some p) max_tokens temperature top_p
        callback user_data).loop_exit ≠ some LoopExit.out_of_fuel) := by
  refine ⟨fun prompt => rfl, fun h => rfl, fun h p htok => ?_, fun h p htok hprime => ?_,
    fun h p htok hprime => ⟨?_, ?_⟩⟩
  · rw [generate_tokenize_failed E w h p max_tokens temperature top_p callback user_data htok]
  · rw [generate_prime_failed E w h p max_tokens temperature top_p callback user_data htok
      hprime]
  · rw [generate_loop_path E w h p max_tokens temperature top_p callback user_data htok
      hprime]
    exact (generate_loop_count E w h p max_tokens temperature top_p callback user_data).1
  · exact generate_never_out_of_fuel E w h p max_tokens temperature top_p callback user_data

/-- C1, on the scripted library: `generate(null, "x", 10, 0.0, 1.0, cb, data) = -1`,
`generate(h, null, 10, 0.0, 1.0, cb, data) = -2` for a loaded handle, `-3` for a prompt
that does not fit a context window of 4, `-4` when the priming decode fails on the
begin-of-sequence token, and the count `2` for a run that ends at end-of-sequence. -/
theorem generate_return_value_witness :
    (llama_wrapper_generate (scriptedLib [5, 6] 99 100) staleWorld none (some "x") 10
      zero_f one_f continueCallback 0).ret = -1
    ∧ (llama_wrapper_generate (scriptedLib [5, 6] 99 100) staleWorld (some loadedHandle) none
      10 zero_f one_f continueCallback 0).ret = -2
    ∧ (llama_wrapper_generate (scriptedLib [5, 6] 99 100) staleWorld
      (some { loadedHandle with n_ctx := 4 }) (some "hello") 10 zero_f one_f
      continueCallback 0).ret = -3
    ∧ (llama_wrapper_generate (scriptedLib [5, 6] 1 100) staleWorld (some loadedHandle)
      (some "x") 10 zero_f one_f continueCallback 0).ret = -4
    ∧ (0 ≤ (llama_wrapper_generate (scriptedLib [5, 6] 99 100) staleWorld (some loadedHandle)
      (some "x") 10 zero_f one_f continueCallback 0).ret
      ∧ (llama_wrapper_generate (scriptedLib [5, 6] 99 100) staleWorld (some loadedHandle)
      (some "x") 10 zero_f one_f continueCallback 0).ret = 2) :=
  ⟨(generate_return_value (scriptedLib [5, 6] 99 100) staleWorld 10 zero_f one_f
      continueCallback 0).1 (some "x"),
   (generate_return_value (scriptedLib [5, 6] 99 100) staleWorld 10 zero_f one_f
      continueCallback 0).2.1 loadedHandle,
   (generate_return_value (scriptedLib [5, 6] 99 100) staleWorld 10 zero_f one_f
      continueCallback 0).2.2.1 { loadedHandle with n_ctx := 4 } "hello" (by decide),
   (generate_return_value (scriptedLib [5, 6] 1 100) staleWorld 10 zero_f one_f
      continueCallback 0).2.2.2.1 loadedHandle "x" (by decide) (by decide),
   ((generate_return_value (scriptedLib [5, 6] 99 100) staleWorld 10 zero_f one_f
      continueCallback 0).2.2.2.2 loadedHandle "x" (by decide) (by decide)).1,
   by decide⟩

/-- The first pass through the loop body when no cancellation is observed, the sampled
token is not end-of-generation, its text is non-empty and the callback returns
non-zero: the pass ends at the callback's `break`, before the decode and before
`n_generated++`, in the world the callback left. -/
theorem emit_body_callback_stop {σ : Type} (E : LlamaLib σ) (model : Option llama_model)
    (ctx : Option llama_context) (sampler : llama_sampler)
    (cb : World σ → String → Nat → Int × World σ) (user_data : Nat) (w : World σ)
    (hflag : E.cancel_arrived w.lib = false)
    (heog : E.llama_vocab_is_eog model (E.llama_sampler_sample w.lib sampler ctx).1 = false)
    (hlen : 0 < (E.llama_token_to_piece model (E.llama_sampler_sample w.lib sampler ctx).1).1)
    (hcb : (cb { w with lib := (E.llama_sampler_sample w.lib sampler ctx).2 }
      (E.llama_token_to_piece model (E.llama_sampler_sample w.lib sampler ctx).1).2
      user_data).1 ≠ 0) :
    emit_body E model ctx sampler (some cb) user_data false w
      = BodyOutcome.exit LoopExit.callback_stop false
          (cb { w with lib := (E.llama_sampler_sample w.lib sampler ctx).2 }
            (E.llama_token_to_piece model (E.llama_sampler_sample w.lib sampler ctx).1).2
            user_data).2
          [Event.cancel_check false,
           Event.sample (E.llama_sampler_sample w.lib sampler ctx).1,
           Event.callback
            (E.llama_token_to_piece model (E.llama_sampler_sample w.lib sampler ctx).1).2
            (cb { w with lib := (E.llama_sampler_sample w.lib sampler ctx).2 }
              (E.llama_token_to_piece model (E.llama_sampler_sample w.lib sampler ctx).1).2
              user_data).1] := by
  simp [emit_body, emit_token, hflag, heog, hlen, hcb]

/-- C2, as the code behaves. On a handle with `max_tokens >= 1`, when tokenization and the
priming decode succeed, the first flag check observes no cancellation, the first sampled
token is not end-of-generation and has non-empty text, and the callback returns non-zero
on that first token: the call stops there and returns the count `0` (the token handed to
the callback is not counted, the counter being incremented only after the token's
decode); the callback ran exactly once and no generated token was decoded; the call
itself records no error, so the error channel afterwards is what that one callback
invocation left in it, the empty string for a callback that does not write the
channel. -/
theorem callback_stop_returns_zero {σ : Type} (E : LlamaLib σ) (w : World σ)
    (h : LlamaContextInternal) (p : String) (max_tokens : Int) (temperature top_p : c_float)
    (cb : World σ → String → Nat → Int × World σ) (user_data : Nat)
    (hmax : 1 ≤ max_tokens)
    (htok : 0 ≤ tokenize_count E h p)
    (hprime : prime_status E w h p = 0)
    (hflag : E.cancel_arrived (primed_lib E w h p) = false)
    (heog : E.llama_vocab_is_eog h.model (first_token E w h p temperature top_p) = false)
    (hlen : 0 < (E.llama_token_to_piece h.model (first_token E w h p temperature top_p)).1)
    (hcb : (cb (first_callback_world E w h p temperature top_p)
      (E.llama_token_to_piece h.model (first_token E w h p temperature top_p)).2
      user_data).1 ≠ 0) :
    (llama_wrapper_generate E w (some h) (some p) max_tokens temperature top_p (some cb)
      user_data).ret = 0
    ∧ llama_wrapper_get_error (llama_wrapper_generate E w (some h) (some p) max_tokens
        temperature top_p (some cb) user_data).world
      = (cb (first_callback_world E w h p temperature top_p)
          (E.llama_token_to_piece h.model (first_token E w h p temperature top_p)).2
          user_data).2.g_last_error
    ∧ (callback_keeps_error (some cb) →
      llama_wrapper_get_error (llama_wrapper_generate E w (some h) (some p) max_tokens
        temperature top_p (some cb) user_data).world = "")
    ∧ (llama_wrapper_generate E w (some h) (some p) max_tokens temperature top_p (some cb)
      user_data).loop_exit = some LoopExit.callback_stop
    ∧ (llama_wrapper_generate E w (some h) (some p) max_tokens temperature top_p (some cb)
      user_data).trace
        = [Event.tokenize p h.n_ctx,
           Event.sampler_init (build_sampler_chain temperature top_p),
           Event.decode (prompt_tokens E h p) 0,
           Event.cancel_check false,
           Event.sample (first_token E w h p temperature top_p),
           Event.callback
            (E.llama_token_to_piece h.model (first_token E w h p temperature top_p)).2
            (cb (first_callback_world E w h p temperature top_p)
              (E.llama_token_to_piece h.model (first_token E w h p temperature top_p)).2
              user_data).1,
           Event.sampler_free] := by
  obtain ⟨k, hk⟩ : ∃ k, max_tokens.toNat = k + 1 := ⟨max_tokens.toNat - 1, by omega⟩
  have hb := emit_body_callback_stop E h.model h.ctx (build_sampler_chain temperature top_p)
    cb user_data (primed_world E w h p) hflag heog hlen hcb
  have hloop := emit_loop_exit E h.model h.ctx (build_sampler_chain temperature top_p)
    max_tokens (some cb) user_data k 0 false (primed_world E w h p) (by omega) hb
  rw [generate_loop_path E w h p max_tokens temperature top_p (some cb) user_data htok hprime]
  unfold generate_loop
  rw [hk, hloop]
  refine ⟨rfl, rfl, fun hkeep => ?_, rfl, rfl⟩
  simp only [llama_wrapper_get_error]
  exact hkeep cb rfl _ _ _

/-- C2, on the scripted library: a callback that stops on the first token `5` and does
not write the error channel gives the count `0` and an empty error channel. -/
theorem callback_stop_returns_zero_witness :
    (llama_wrapper_generate (scriptedLib [5, 6] 99 100) staleWorld (some loadedHandle)
      (some "x") 10 zero_f one_f stopCallback 0).ret = 0
    ∧ llama_wrapper_get_error (llama_wrapper_generate (scriptedLib [5, 6] 99 100) staleWorld
      (some loadedHandle) (some "x") 10 zero_f one_f stopCallback 0).world = "" :=
  ⟨(callback_stop_returns_zero (scriptedLib [5, 6] 99 100) staleWorld loadedHandle "x" 10
      zero_f one_f (fun w _ _ => (1, w)) 0 (by decide) (by decide) (by decide) (by decide)
      (by decide) (by decide) (by decide)).1,
   (callback_stop_returns_zero (scriptedLib [5, 6] 99 100) staleWorld loadedHandle "x" 10
      zero_f one_f (fun w _ _ => (1, w)) 0 (by decide) (by decide) (by decide) (by decide)
      (by decide) (by decide) (by decide)).2.2.1
      (fun cb hcb w text user_data => by cases hcb; rfl)⟩

/-- C2 as stated fails: on the scripted library with a loaded handle, `max_tokens = 10`,
successful tokenization and priming, a first token `5` that is not end-of-generation and
has the text `"t"`, and a callback that returns `1` on it, the call returns `0`,
not `1`. -/
theorem callback_stop_count_counterexample :
    (1 : Int) ≤ 10
    ∧ 0 ≤ tokenize_count (scriptedLib [5, 6] 99 100) loadedHandle "x"
    ∧ prime_status (scriptedLib [5, 6] 99 100) staleWorld loadedHandle "x" = 0
    ∧ first_token (scriptedLib [5, 6] 99 100) staleWorld loadedHandle "x" zero_f one_f = 5
    ∧ (scriptedLib [5, 6] 99 100).llama_vocab_is_eog loadedHandle.model 5 = false
    ∧ (scriptedLib [5, 6] 99 100).llama_token_to_piece loadedHandle.model 5 = (1, "t")
    ∧ (llama_wrapper_generate (scriptedLib [5, 6] 99 100) staleWorld (some loadedHandle)
        (some "x") 10 zero_f one_f stopCallback 0).trace
        = [Event.tokenize "x" 2048, Event.sampler_init [llama_sampler_stage.greedy],
           Event.decode [1, 120] 0, Event.cancel_check false, Event.sample 5,
           Event.callback "t" 1, Event.sampler_free]
    ∧ (llama_wrapper_generate (scriptedLib [5, 6] 99 100) staleWorld (some loadedHandle)
        (some "x") 10 zero_f one_f stopCallback 0).ret = 0
    ∧ (llama_wrapper_generate (scriptedLib [5, 6] 99 100) staleWorld (some loadedHandle)
        (some "x") 10 zero_f one_f stopCallback 0).ret ≠ 1 := by
  decide

/-- C3, as the code behaves. For a generation whose tokenization and priming decode
succeed, whatever the flag held at entry: the returned count `n` satisfies
`0 <= n <= max (max_tokens, 0)`.  A cancellation that has arrived, after the reset at
entry, when the loop reaches the iteration boundary after `k` complete passes
(`k < max_tokens`) stops the loop at that boundary: the call returns `k`, the flag check
there is followed by nothing but the release of the sampler (no further sample, callback
or decode), and the call itself records no error, so the error channel is what the
callbacks left, the empty string for a callback that does not write it.  Conversely a
flag check that observes the flag set is followed by nothing but the release of the
sampler, with `n < max_tokens`.  When no cancellation arrives after the reset at entry,
no check observes the flag (a flag set before the call is cleared and has no effect). -/
theorem cancellation_convergence {σ : Type} (E : LlamaLib σ) (w : World σ)
    (h : LlamaContextInternal) (p : String) (max_tokens : Int) (temperature top_p : c_float)
    (callback : TokenCallback σ) (user_data : Nat)
    (htok : 0 ≤ tokenize_count E h p) (hprime : prime_status E w h p = 0) :
    0 ≤ (llama_wrapper_generate E w (some h) (some p) max_tokens temperature top_p callback
      user_data).ret
    ∧ (llama_wrapper_generate E w (some h) (some p) max_tokens temperature top_p callback
      user_data).ret ≤ max max_tokens 0
    ∧ (∀ (k : Nat) (s : LoopState σ),
      generate_state_after E w h p max_tokens temperature top_p callback user_data k
        = some s →
      (k : Int) < max_tokens →
      E.cancel_arrived s.world.lib = true →
      (llama_wrapper_generate E w (some h) (some p) max_tokens temperature top_p callback
        user_data).ret = k
      ∧ (llama_wrapper_generate E w (some h) (some p) max_tokens temperature top_p callback
        user_data).loop_exit = some LoopExit.cancelled
      ∧ (llama_wrapper_generate E w (some h) (some p) max_tokens temperature top_p callback
        user_data).trace
          = [Event.tokenize p h.n_ctx,
             Event.sampler_init (build_sampler_chain temperature top_p),
             Event.decode (prompt_tokens E h p) 0]
            ++ s.trace ++ [Event.cancel_check true, Event.sampler_free]
      ∧ llama_wrapper_get_error (llama_wrapper_generate E w (some h) (some p) max_tokens
          temperature top_p callback user_data).world = s.world.g_last_error
      ∧ (callback_keeps_error callback →
        llama_wrapper_get_error (llama_wrapper_generate E w (some h) (some p) max_tokens
          temperature top_p callback user_data).world = ""))
    ∧ (∀ pre post : List Event,
      (llama_wrapper_generate E w (some h) (some p) max_tokens temperature top_p callback
        user_data).trace = pre ++ Event.cancel_check true :: post →
      post = [Event.sampler_free]
      ∧ (llama_wrapper_generate E w (some h) (some p) max_tokens temperature top_p callback
        user_data).loop_exit = some LoopExit.cancelled
      ∧ (llama_wrapper_generate E w (some h) (some p) max_tokens temperature top_p callback
        user_data).ret < max_tokens
      ∧ (callback_keeps_error callback →
        llama_wrapper_get_error (llama_wrapper_generate E w (some h) (some p) max_tokens
          temperature top_p callback user_data).world = ""))
    ∧ ((∀ s, E.cancel_arrived s = false) →
      Event.cancel_check true ∉ (llama_wrapper_generate E w (some h) (some p) max_tokens
        temperature top_p callback user_data).trace) := by
  rw [generate_loop_path E w h p max_tokens temperature top_p callback user_data htok hprime]
  have hcount := generate_loop_count E w h p max_tokens temperature top_p callback user_data
  have hcancelled : (generate_loop E w h p max_tokens temperature top_p callback
      user_data).loop_exit = LoopExit.cancelled → callback_keeps_error callback →
      (generate_loop E w h p max_tokens temperature top_p callback
        user_data).world.g_last_error = "" := by
    intro hexit hk
    rw [generate_loop_error E w h p max_tokens temperature top_p callback user_data hk, hexit]
    simp
  refine ⟨hcount.1, hcount.2, ?_, ?_, ?_⟩
  · intro k s hs hk harr
    have hcnt := loop_state_after_count E h.model h.ctx (build_sampler_chain temperature top_p)
      max_tokens callback user_data k 0 false (primed_world E w h p) hs
    have hgl : generate_loop E w h p max_tokens temperature top_p callback user_data
        = ⟨s.n_generated, true, s.world, s.trace ++ [Event.cancel_check true],
            LoopExit.cancelled⟩ :=
      emit_loop_cancel_at E h.model h.ctx (build_sampler_chain temperature top_p) max_tokens
        callback user_data k max_tokens.toNat 0 false (primed_world E w h p) hs
        (by rw [hcnt]; simpa using hk) (by simp [harr]) (by omega)
    have hex : (generate_loop E w h p max_tokens temperature top_p callback
        user_data).loop_exit = LoopExit.cancelled := by rw [hgl]
    refine ⟨?_, ?_, ?_, ?_, fun hkeep => hcancelled hex hkeep⟩
    · simp only [hgl, hcnt]
      simp
    · simp only [hgl]
    · simp only [hgl]
      simp
    · simp only [hgl, llama_wrapper_get_error]
  · intro pre post ht
    obtain ⟨mid, rest, hpost, hloop⟩ := generate_trace_split h p temperature top_p _ pre post
      _ _ (Or.inl rfl) ht
    have hlast := emit_loop_cancel_last E h.model h.ctx
      (build_sampler_chain temperature top_p) max_tokens callback user_data
      max_tokens.toNat 0 false (primed_world E w h p) mid rest hloop
    have hexit : (generate_loop E w h p max_tokens temperature top_p callback
        user_data).loop_exit = LoopExit.cancelled := hlast.2
    have hlt := (emit_loop_count E h.model h.ctx (build_sampler_chain temperature top_p)
      max_tokens callback user_data max_tokens.toNat 0 false
      (primed_world E w h p)).2.2 (by rw [hlast.2]; simp)
    exact ⟨by rw [hpost, hlast.1]; rfl, by simp only [hexit], hlt,
      fun hkeep => hcancelled hexit hkeep⟩
  · intro harr
    have hno := emit_loop_no_cancel E h.model h.ctx (build_sampler_chain temperature top_p)
      max_tokens callback user_data harr max_tokens.toNat 0 (primed_world E w h p)
    simp only [List.mem_append, not_or]
    exact ⟨⟨by simp, hno⟩, by simp⟩

/-- C3, on the scripted library: a cancellation that arrives once two tokens have been
sampled is pending at the iteration boundary after two complete passes; the call
returns `2`, the third flag check is followed by nothing but the release of the sampler,
and the error channel is empty. -/
theorem cancellation_convergence_witness :
    0 ≤ tokenize_count (scriptedLib [5, 6, 8, 9] 99 2) loadedHandle "x"
    ∧ prime_status (scriptedLib [5, 6, 8, 9] 99 2) staleWorld loadedHandle "x" = 0
    ∧ (scriptedLib [5, 6, 8, 9] 99 2).cancel_arrived 2 = true
    ∧ (llama_wrapper_generate (scriptedLib [5, 6, 8, 9] 99 2) staleWorld (some loadedHandle)
        (some "x") 10 zero_f one_f continueCallback 0).ret = (2 : Nat)
    ∧ (llama_wrapper_generate (scriptedLib [5, 6, 8, 9] 99 2) staleWorld (some loadedHandle)
        (some "x") 10 zero_f one_f continueCallback 0).trace
        = [Event.tokenize "x" 2048,
           Event.sampler_init (build_sampler_chain zero_f one_f),
           Event.decode (prompt_tokens (scriptedLib [5, 6, 8, 9] 99 2) loadedHandle "x") 0]
          ++ [Event.cancel_check false, Event.sample 5, Event.callback "t" 0,
              Event.decode [5] 0,
              Event.cancel_check false, Event.sample 6, Event.callback "t" 0,
              Event.decode [6] 0]
          ++ [Event.cancel_check true, Event.sampler_free]
    ∧ llama_wrapper_get_error (llama_wrapper_generate (scriptedLib [5, 6, 8, 9] 99 2)
        staleWorld (some loadedHandle) (some "x") 10 zero_f one_f continueCallback 0).world
        = "" :=
  ⟨by decide, by decide, by decide,
   ((cancellation_convergence (scriptedLib [5, 6, 8, 9] 99 2) staleWorld loadedHandle "x" 10
      zero_f one_f continueCallback 0 (by decide) (by decide)).2.2.1 2
      ⟨2, false, ⟨"", "", 2⟩,
        [Event.cancel_check false, Event.sample 5, Event.callback "t" 0, Event.decode [5] 0,
         Event.cancel_check false, Event.sample 6, Event.callback "t" 0, Event.decode [6] 0]⟩
      rfl (by decide) (by decide)).1,
   ((cancellation_convergence (scriptedLib [5, 6, 8, 9] 99 2) staleWorld loadedHandle "x" 10
      zero_f one_f continueCallback 0 (by decide) (by decide)).2.2.1 2
      ⟨2, false, ⟨"", "", 2⟩,
        [Event.cancel_check false, Event.sample 5, Event.callback "t" 0, Event.decode [5] 0,
         Event.cancel_check false, Event.sample 6, Event.callback "t" 0, Event.decode [6] 0]⟩
      rfl (by decide) (by decide)).2.2.1,
   ((cancellation_convergence (scriptedLib [5, 6, 8, 9] 99 2) staleWorld loadedHandle "x" 10
      zero_f one_f continueCallback 0 (by decide) (by decide)).2.2.1 2
      ⟨2, false, ⟨"", "", 2⟩,
        [Event.cancel_check false, Event.sample 5, Event.callback "t" 0, Event.decode [5] 0,
         Event.cancel_check false, Event.sample 6, Event.callback "t" 0, Event.decode [6] 0]⟩
      rfl (by decide) (by decide)).2.2.2.2
      (fun cb hcb w text user_data => by cases hcb; rfl)⟩

/-- C3 as stated fails when the flag is set before the call. On the scripted library,
with a loaded handle whose flag is set at entry and successful tokenization and priming:
(a) with `max_tokens = 3` and a decode that fails on the first generated token `5`, the
first flag check observes nothing, a sample, a callback and a decode follow it, and the
error channel is not empty afterwards; (b) with `max_tokens = -1` the call returns `0`,
which is not `<= max_tokens`. -/
theorem cancellation_before_call_counterexample :
    ({ loadedHandle with cancel_requested := true } : LlamaContextInternal).cancel_requested
      = true
    ∧ 0 ≤ tokenize_count (scriptedLib [5, 6] 5 100)
        { loadedHandle with cancel_requested := true } "x"
    ∧ prime_status (scriptedLib [5, 6] 5 100) staleWorld
        { loadedHandle with cancel_requested := true } "x" = 0
    ∧ (llama_wrapper_generate (scriptedLib [5, 6] 5 100) staleWorld
        (some { loadedHandle with cancel_requested := true }) (some "x") 3 zero_f one_f
        continueCallback 0).trace
        = [Event.tokenize "x" 2048, Event.sampler_init [llama_sampler_stage.greedy],
           Event.decode [1, 120] 0, Event.cancel_check false, Event.sample 5,
           Event.callback "t" 0, Event.decode [5] 1, Event.sampler_free]
    ∧ llama_wrapper_get_error (llama_wrapper_generate (scriptedLib [5, 6] 5 100) staleWorld
        (some { loadedHandle with cancel_requested := true }) (some "x") 3 zero_f one_f
        continueCallback 0).world = "Failed to decode generated token"
    ∧ llama_wrapper_get_error (llama_wrapper_generate (scriptedLib [5, 6] 5 100) staleWorld
        (some { loadedHandle with cancel_requested := true }) (some "x") 3 zero_f one_f
        continueCallback 0).world ≠ ""
    ∧ (llama_wrapper_generate (scriptedLib [5, 6] 5 100) staleWorld
        (some { loadedHandle with cancel_requested := true }) (some "x") (-1) zero_f one_f
        continueCallback 0).ret = 0
    ∧ ¬ ((llama_wrapper_generate (scriptedLib [5, 6] 5 100) staleWorld
        (some { loadedHandle with cancel_requested := true }) (some "x") (-1) zero_f one_f
        continueCallback 0).ret ≤ -1) := by
  decide

/-- C4. For a non-null handle and a non-null prompt, `llama_wrapper_generate` stores
`false` into the cancellation flag before tokenizing: a `llama_wrapper_cancel_generate`
issued before the call changes nothing of the call (return value, trace with its callback
invocations, error channel, handle afterwards, outside state); more generally the call is
the same for any two flag values at entry; and when tokenization fails, the flag is
`false` at the `-3` return even if it was set at entry. -/
theorem cancel_before_generate_no_effect {σ : Type} (E : LlamaLib σ) (w : World σ)
    (h : LlamaContextInternal) (p : String) (max_tokens : Int) (temperature top_p : c_float)
    (callback : TokenCallback σ) (user_data : Nat) :
    llama_wrapper_generate E w (llama_wrapper_cancel_generate (some h)) (some p) max_tokens
        temperature top_p callback user_data
      = llama_wrapper_generate E w (some h) (some p) max_tokens temperature top_p callback
        user_data
    ∧ (∀ b1 b2 : Bool,
      llama_wrapper_generate E w (some { h with cancel_requested := b1 }) (some p) max_tokens
          temperature top_p callback user_data
        = llama_wrapper_generate E w (some { h with cancel_requested := b2 }) (some p)
          max_tokens temperature top_p callback user_data)
    ∧ (tokenize_count E h p < 0 →
      (llama_wrapper_generate E w (llama_wrapper_cancel_generate (some h)) (some p)
        max_tokens temperature top_p callback user_data).handle
        = some { h with cancel_requested := false }) := by
  refine ⟨rfl, fun b1 b2 => rfl, fun htok => ?_⟩
  have h1 : llama_wrapper_generate E w (llama_wrapper_cancel_generate (some h)) (some p)
        max_tokens temperature top_p callback user_data
      = llama_wrapper_generate E w (some h) (some p) max_tokens temperature top_p callback
        user_data := rfl
  rw [h1, generate_tokenize_failed E w h p max_tokens temperature top_p callback user_data
    htok]

/-- C4, on the scripted library: after a cancel issued while idle, a generation whose
prompt does not fit the context window returns with the flag cleared. -/
theorem cancel_before_generate_no_effect_witness :
    tokenize_count (scriptedLib [5, 6] 99 100) { loadedHandle with n_ctx := 4 } "hello" < 0
    ∧ (llama_wrapper_generate (scriptedLib [5, 6] 99 100) staleWorld
        (llama_wrapper_cancel_generate (some { loadedHandle with n_ctx := 4 })) (some "hello")
        10 zero_f one_f continueCallback 0).handle
        = some { loadedHandle with n_ctx := 4, cancel_requested := false } :=
  ⟨by decide,
   (cancel_before_generate_no_effect (scriptedLib [5, 6] 99 100) staleWorld
      { loadedHandle with n_ctx := 4 } "hello" 10 zero_f one_f continueCallback 0).2.2
      (by decide)⟩

/-- C5. With `max_tokens <= 0`, when tokenization and the priming decode succeed,
`llama_wrapper_generate` returns `0`; its external calls are exactly the tokenization,
the construction of the sampler chain, the one priming decode and the release of the
sampler: one decode, no sample, no flag check (no pass through the loop body) and no
callback invocation; the error channel is empty. -/
theorem max_tokens_nonpositive {σ : Type} (E : LlamaLib σ) (w : World σ)
    (h : LlamaContextInternal) (p : String) (max_tokens : Int) (temperature top_p : c_float)
    (callback : TokenCallback σ) (user_data : Nat)
    (hmax : max_tokens ≤ 0)
    (htok : 0 ≤ tokenize_count E h p) (hprime : prime_status E w h p = 0) :
    (llama_wrapper_generate E w (some h) (some p) max_tokens temperature top_p callback
      user_data).ret = 0
    ∧ (llama_wrapper_generate E w (some h) (some p) max_tokens temperature top_p callback
      user_data).trace
        = [Event.tokenize p h.n_ctx,
           Event.sampler_init (build_sampler_chain temperature top_p),
           Event.decode (prompt_tokens E h p) 0, Event.sampler_free]
    ∧ (llama_wrapper_generate E w (some h) (some p) max_tokens temperature top_p callback
      user_data).trace.countP Event.is_decode = 1
    ∧ (llama_wrapper_generate E w (some h) (some p) max_tokens temperature top_p callback
      user_data).trace.countP Event.is_sample = 0
    ∧ (llama_wrapper_generate E w (some h) (some p) max_tokens temperature top_p callback
      user_data).trace.countP Event.is_cancel_check = 0
    ∧ (llama_wrapper_generate E w (some h) (some p) max_tokens temperature top_p callback
      user_data).trace.countP Event.is_callback = 0
    ∧ (llama_wrapper_generate E w (some h) (some p) max_tokens temperature top_p callback
      user_data).loop_exit = some LoopExit.max_tokens_reached
    ∧ llama_wrapper_get_error (llama_wrapper_generate E w (some h) (some p) max_tokens
      temperature top_p callback user_data).world = "" := by
  rw [generate_loop_path E w h p max_tokens temperature top_p callback user_data htok hprime]
  unfold generate_loop
  rw [emit_loop_done E h.model h.ctx (build_sampler_chain temperature top_p) max_tokens
    callback user_data _ 0 false _ (by omega)]
  simp [llama_wrapper_get_error, Event.is_decode, Event.is_sample, Event.is_cancel_check,
    Event.is_callback, primed_world]

/-- C5, on the scripted library, for `max_tokens = 0` and `max_tokens = -5`: the call
returns `0` with no callback invocation and exactly one decode. -/
theorem max_tokens_nonpositive_witness :
    ((llama_wrapper_generate (scriptedLib [5, 6] 99 100) staleWorld (some loadedHandle)
        (some "x") 0 one_f one_f continueCallback 0).ret = 0
      ∧ (llama_wrapper_generate (scriptedLib [5, 6] 99 100) staleWorld (some loadedHandle)
        (some "x") 0 one_f one_f continueCallback 0).trace
        = [Event.tokenize "x" 2048,
           Event.sampler_init (build_sampler_chain one_f one_f),
           Event.decode (prompt_tokens (scriptedLib [5, 6] 99 100) loadedHandle "x") 0,
           Event.sampler_free])
    ∧ ((llama_wrapper_generate (scriptedLib [5, 6] 99 100) staleWorld (some loadedHandle)
        (some "x") (-5) one_f one_f continueCallback 0).ret = 0
      ∧ (llama_wrapper_generate (scriptedLib [5, 6] 99 100) staleWorld (some loadedHandle)
        (some "x") (-5) one_f one_f continueCallback 0).trace.countP Event.is_callback = 0) :=
  ⟨⟨(max_tokens_nonpositive (scriptedLib [5, 6] 99 100) staleWorld loadedHandle "x" 0 one_f
      one_f continueCallback 0 (by decide) (by decide) (by decide)).1,
    (max_tokens_nonpositive (scriptedLib [5, 6] 99 100) staleWorld loadedHandle "x" 0 one_f
      one_f continueCallback 0 (by decide) (by decide) (by decide)).2.1⟩,
   ⟨(max_tokens_nonpositive (scriptedLib [5, 6] 99 100) staleWorld loadedHandle "x" (-5) one_f
      one_f continueCallback 0 (by decide) (by decide) (by decide)).1,
    (max_tokens_nonpositive (scriptedLib [5, 6] 99 100) staleWorld loadedHandle "x" (-5) one_f
      one_f continueCallback 0 (by decide) (by decide) (by decide)).2.2.2.2.2.1⟩⟩

/-- C6, as the code behaves. After a call of `llama_wrapper_generate` that returns a
count `>= 0`, the emit loop has left through its condition or one of its four `break`s.
It left through the decode-failure `break` if and only if a one-token decode of a
generated token returned non-zero; such a decode is followed by nothing but the release
of the sampler, and the error channel then holds that decode's message, whatever the
callback does.  For a callback that does not write the error channel, the channel is
non-empty if and only if such a decode returned non-zero, and it is the empty string
after a cancellation, a non-zero callback return, an end-of-generation token or
`max_tokens` tokens. -/
theorem error_channel_after_count {σ : Type} (E : LlamaLib σ) (w : World σ)
    (ctx : LlamaContext) (prompt : Option String) (max_tokens : Int)
    (temperature top_p : c_float) (callback : TokenCallback σ) (user_data : Nat)
    (hret : 0 ≤ (llama_wrapper_generate E w ctx prompt max_tokens temperature top_p callback
      user_data).ret) :
    ((llama_wrapper_generate E w ctx prompt max_tokens temperature top_p callback
        user_data).loop_exit = some LoopExit.decode_failed
      ↔ ∃ token status, status ≠ 0
          ∧ Event.decode [token] status ∈ (llama_wrapper_generate E w ctx prompt max_tokens
            temperature top_p callback user_data).trace)
    ∧ (∀ (pre post : List Event) (batch : List llama_token) (status : Int),
      status ≠ 0 →
      (llama_wrapper_generate E w ctx prompt max_tokens temperature top_p callback
        user_data).trace = pre ++ Event.decode batch status :: post →
      post = [Event.sampler_free]
      ∧ (llama_wrapper_generate E w ctx prompt max_tokens temperature top_p callback
        user_data).loop_exit = some LoopExit.decode_failed)
    ∧ ((llama_wrapper_generate E w ctx prompt max_tokens temperature top_p callback
        user_data).loop_exit = some LoopExit.decode_failed →
      llama_wrapper_get_error (llama_wrapper_generate E w ctx prompt max_tokens temperature
        top_p callback user_data).world = "Failed to decode generated token")
    ∧ (callback_keeps_error callback →
      (llama_wrapper_get_error (llama_wrapper_generate E w ctx prompt max_tokens temperature
          top_p callback user_data).world ≠ ""
        ↔ ∃ token status, status ≠ 0
            ∧ Event.decode [token] status ∈ (llama_wrapper_generate E w ctx prompt
              max_tokens temperature top_p callback user_data).trace)
      ∧ ((llama_wrapper_generate E w ctx prompt max_tokens temperature top_p callback
          user_data).loop_exit = some LoopExit.cancelled
        ∨ (llama_wrapper_generate E w ctx prompt max_tokens temperature top_p callback
          user_data).loop_exit = some LoopExit.callback_stop
        ∨ (llama_wrapper_generate E w ctx prompt max_tokens temperature top_p callback
          user_data).loop_exit = some LoopExit.end_of_generation
        ∨ (llama_wrapper_generate E w ctx prompt max_tokens temperature top_p callback
          user_data).loop_exit = some LoopExit.max_tokens_reached →
        llama_wrapper_get_error (llama_wrapper_generate E w ctx prompt max_tokens temperature
          top_p callback user_data).world = ""))
    ∧ ((llama_wrapper_generate E w ctx prompt max_tokens temperature top_p callback
        user_data).loop_exit = some LoopExit.decode_failed
      ∨ (llama_wrapper_generate E w ctx prompt max_tokens temperature top_p callback
        user_data).loop_exit = some LoopExit.cancelled
      ∨ (llama_wrapper_generate E w ctx prompt max_tokens temperature top_p callback
        user_data).loop_exit = some LoopExit.callback_stop
      ∨ (llama_wrapper_generate E w ctx prompt max_tokens temperature top_p callback
        user_data).loop_exit = some LoopExit.end_of_generation
      ∨ (llama_wrapper_generate E w ctx prompt max_tokens temperature top_p callback
        user_data).loop_exit = some LoopExit.max_tokens_reached) := by
  cases ctx with
  | none => rw [generate_null_handle] at hret; simp at hret
  | some h =>
    cases prompt with
    | none => rw [generate_null_prompt] at hret; simp at hret
    | some p =>
      by_cases htok : 0 ≤ tokenize_count E h p
      · by_cases hprime : prime_status E w h p = 0
        · have hfuel := generate_never_out_of_fuel E w h p max_tokens temperature top_p
            callback user_data
          rw [generate_loop_path E w h p max_tokens temperature top_p callback user_data htok
            hprime] at hfuel ⊢
          simp only [llama_wrapper_get_error, Option.some.injEq, ne_eq] at hfuel ⊢
          -- a decode that returned non-zero, anywhere in the call's trace
          have hlast : ∀ (pre post : List Event) (batch : List llama_token) (status : Int),
              status ≠ 0 →
              [Event.tokenize p h.n_ctx,
                Event.sampler_init (build_sampler_chain temperature top_p),
                Event.decode (prompt_tokens E h p) 0]
                ++ (generate_loop E w h p max_tokens temperature top_p callback
                  user_data).trace ++ [Event.sampler_free]
                = pre ++ Event.decode batch status :: post →
              post = [Event.sampler_free]
              ∧ (generate_loop E w h p max_tokens temperature top_p callback
                user_data).loop_exit = LoopExit.decode_failed := by
            intro pre post batch status hst ht
            obtain ⟨mid, rest, hpost, hloop⟩ := generate_trace_split h p temperature top_p _
              pre post _ _ (Or.inr ⟨batch, status, hst, rfl⟩) ht
            have hl := emit_loop_decode_last E h.model h.ctx
              (build_sampler_chain temperature top_p) max_tokens callback user_data
              max_tokens.toNat 0 false (primed_world E w h p) mid rest batch status hst hloop
            exact ⟨by rw [hpost, hl.1]; rfl, hl.2⟩
          have hiff : (generate_loop E w h p max_tokens temperature top_p callback
                user_data).loop_exit = LoopExit.decode_failed
              ↔ ∃ token status, status ≠ 0
                ∧ Event.decode [token] status ∈
                  [Event.tokenize p h.n_ctx,
                    Event.sampler_init (build_sampler_chain temperature top_p),
                    Event.decode (prompt_tokens E h p) 0]
                    ++ (generate_loop E w h p max_tokens temperature top_p callback
                      user_data).trace ++ [Event.sampler_free] := by
            constructor
            · intro hx
              obtain ⟨pre0, token, status, hst, htr⟩ := emit_loop_decode_failed E h.model h.ctx
                (build_sampler_chain temperature top_p) max_tokens callback user_data
                max_tokens.toNat 0 false (primed_world E w h p) hx
              refine ⟨token, status, hst, ?_⟩
              have htr2 : (generate_loop E w h p max_tokens temperature top_p callback
                  user_data).trace = pre0 ++ [Event.decode [token] status] := htr
              rw [htr2]
              simp
            · rintro ⟨token, status, hst, hmem⟩
              obtain ⟨pre, post, hsplit⟩ := List.append_of_mem hmem
              exact (hlast pre post [token] status hst hsplit).2
          have hdf := emit_loop_error_decode_failed E h.model h.ctx
            (build_sampler_chain temperature top_p) max_tokens callback user_data
            max_tokens.toNat 0 false (primed_world E w h p)
          refine ⟨hiff, hlast, hdf, fun hkeep => ?_, ?_⟩
          · have herr := generate_loop_error E w h p max_tokens temperature top_p callback
              user_data hkeep
            rw [← hiff, herr]
            cases hx : (generate_loop E w h p max_tokens temperature top_p callback
              user_data).loop_exit <;> simp
          · cases hx : (generate_loop E w h p max_tokens temperature top_p callback
              user_data).loop_exit <;> simp_all
        · rw [generate_prime_failed E w h p max_tokens temperature top_p callback user_data
            htok hprime] at hret
          simp at hret
      · rw [generate_tokenize_failed E w h p max_tokens temperature top_p callback user_data
          (by omega)] at hret
        simp at hret

/-- C6, on the scripted library with a callback that does not write the error channel:
a run whose decode of the first generated token `5` returns `1` returns the count `0`
and leaves the message of that decode; a run that ends at the end-of-sequence token
returns `2` and leaves the error channel empty. -/
theorem error_channel_after_count_witness :
    (llama_wrapper_get_error (llama_wrapper_generate (scriptedLib [5, 6] 5 100) staleWorld
        (some loadedHandle) (some "x") 10 zero_f one_f continueCallback 0).world
        = "Failed to decode generated token")
    ∧ (llama_wrapper_get_error (llama_wrapper_generate (scriptedLib [5, 6] 99 100) staleWorld
        (some loadedHandle) (some "x") 10 zero_f one_f continueCallback 0).world = "") :=
  ⟨(error_channel_after_count (scriptedLib [5, 6] 5 100) staleWorld (some loadedHandle)
      (some "x") 10 zero_f one_f continueCallback 0 (by decide)).2.2.1
      ((error_channel_after_count (scriptedLib [5, 6] 5 100) staleWorld (some loadedHandle)
        (some "x") 10 zero_f one_f continueCallback 0 (by decide)).1.mpr
        ⟨5, 1, by decide, by decide⟩),
   ((error_channel_after_count (scriptedLib [5, 6] 99 100) staleWorld (some loadedHandle)
      (some "x") 10 zero_f one_f continueCallback 0 (by decide)).2.2.2.1
      (fun cb hcb w text user_data => by cases hcb; rfl)).2
      (Or.inr (Or.inr (Or.inl (by decide))))⟩

/-- C6 as stated fails for a callback that writes the error channel. On the scripted
library, in a single-threaded call on a loaded handle, the callback receives the first
token `5`, calls `llama_wrapper_generate(NULL, ..)` (which records "Context is null") and
returns `1`: the call returns the count `0` through the callback's `break`, no decode of
a generated token failed (the only decode is the priming one, which returned `0`), and
the error channel is not empty afterwards. -/
theorem error_channel_reentrant_callback_counterexample :
    0 ≤ (llama_wrapper_generate (scriptedLib [5, 6] 99 100) staleWorld (some loadedHandle)
      (some "x") 10 zero_f one_f reentrantCallback 0).ret
    ∧ (llama_wrapper_generate (scriptedLib [5, 6] 99 100) staleWorld (some loadedHandle)
      (some "x") 10 zero_f one_f reentrantCallback 0).ret = 0
    ∧ (llama_wrapper_generate (scriptedLib [5, 6] 99 100) staleWorld (some loadedHandle)
      (some "x") 10 zero_f one_f reentrantCallback 0).loop_exit
        = some LoopExit.callback_stop
    ∧ (llama_wrapper_generate (scriptedLib [5, 6] 99 100) staleWorld (some loadedHandle)
      (some "x") 10 zero_f one_f reentrantCallback 0).trace
        = [Event.tokenize "x" 2048, Event.sampler_init [llama_sampler_stage.greedy],
           Event.decode [1, 120] 0, Event.cancel_check false, Event.sample 5,
           Event.callback "t" 1, Event.sampler_free]
    ∧ llama_wrapper_get_error (llama_wrapper_generate (scriptedLib [5, 6] 99 100) staleWorld
      (some loadedHandle) (some "x") 10 zero_f one_f reentrantCallback 0).world
        = "Context is null"
    ∧ llama_wrapper_get_error (llama_wrapper_generate (scriptedLib [5, 6] 99 100) staleWorld
      (some loadedHandle) (some "x") 10 zero_f one_f reentrantCallback 0).world ≠ "" := by
  decide

/-- C7. `llama_wrapper_load_model` with a null or empty model path returns a null handle
without calling the model loader (its trace is empty), for every `n_ctx` and
`n_gpu_layers`, and leaves the non-empty message `"Model path is empty"` in the error
channel whatever the channel held before. -/
theorem empty_path_rejected {σ : Type} (E : LlamaLib σ) (w : World σ)
    (n_ctx n_gpu_layers : Int) :
    ((llama_wrapper_load_model E w (some "") n_ctx n_gpu_layers).handle = none
      ∧ (llama_wrapper_load_model E w (some "") n_ctx n_gpu_layers).trace = []
      ∧ llama_wrapper_get_error (llama_wrapper_load_model E w (some "") n_ctx
          n_gpu_layers).world = "Model path is empty"
      ∧ llama_wrapper_get_error (llama_wrapper_load_model E w (some "") n_ctx
          n_gpu_layers).world ≠ ""
      ∧ (llama_wrapper_load_model E w (some "") n_ctx n_gpu_layers).world.lib = w.lib)
    ∧ ((llama_wrapper_load_model E w none n_ctx n_gpu_layers).handle = none
      ∧ (llama_wrapper_load_model E w none n_ctx n_gpu_layers).trace = []
      ∧ llama_wrapper_get_error (llama_wrapper_load_model E w none n_ctx
          n_gpu_layers).world = "Model path is empty"
      ∧ llama_wrapper_get_error (llama_wrapper_load_model E w none n_ctx
          n_gpu_layers).world ≠ ""
      ∧ (llama_wrapper_load_model E w none n_ctx n_gpu_layers).world.lib = w.lib) := by
  have hne : ("Model path is empty" : String) ≠ "" := by decide
  have h0 : ("" : String).utf8ByteSize = 0 := by decide
  refine ⟨?_, ?_⟩
  · simp [llama_wrapper_load_model, h0, llama_wrapper_get_error, set_error, clear_error, hne]
  · simp [llama_wrapper_load_model, llama_wrapper_get_error, set_error, clear_error, hne]

/-- The comparison `temperature > 0.0f` is false exactly for the zeros, the patterns
with the sign bit set and the NaNs. -/
theorem c_float_not_gt_zero_iff (x : c_float) :
    x.gt_zero = false ↔ (x.is_zero = true ∨ x.sign_bit = true ∨ x.is_nan = true) := by
  unfold c_float.gt_zero c_float.is_zero c_float.sign_bit c_float.is_nan
  simp only [Bool.and_eq_false_iff, decide_eq_false_iff_not, decide_eq_true_eq]
  omega

/-- C8. The sampler chain `llama_wrapper_generate` builds is exactly
`[top_p(top_p, 1), temp(temperature), dist(0)]` when `temperature > 0.0f`, and exactly
`[greedy]` otherwise, that is for a temperature that is zero, negative or NaN; in the
greedy case the chain, and with it the whole call, is the same for any other such
temperature and any other `top_p`.  The chain is the one the call creates once the
prompt is tokenized. -/
theorem sampler_chain_selection (temperature top_p : c_float) :
    (temperature.gt_zero = true →
      build_sampler_chain temperature top_p
        = [llama_sampler_stage.top_p top_p 1, llama_sampler_stage.temp temperature,
           llama_sampler_stage.dist 0])
    ∧ (temperature.gt_zero = false →
      build_sampler_chain temperature top_p = [llama_sampler_stage.greedy])
    ∧ (temperature.gt_zero = false ↔
      (temperature.is_zero = true ∨ temperature.sign_bit = true
        ∨ temperature.is_nan = true))
    ∧ (temperature.gt_zero = false → ∀ temperature2 top_p2 : c_float,
      temperature2.gt_zero = false →
      ∀ {σ : Type} (E : LlamaLib σ) (w : World σ) (ctx : LlamaContext)
        (prompt : Option String) (max_tokens : Int) (callback : TokenCallback σ)
        (user_data : Nat),
        llama_wrapper_generate E w ctx prompt max_tokens temperature top_p callback user_data
          = llama_wrapper_generate E w ctx prompt max_tokens temperature2 top_p2 callback
            user_data)
    ∧ (∀ {σ : Type} (E : LlamaLib σ) (w : World σ) (h : LlamaContextInternal) (p : String)
        (max_tokens : Int) (callback : TokenCallback σ) (user_data : Nat),
        0 ≤ tokenize_count E h p →
        (llama_wrapper_generate E w (some h) (some p) max_tokens temperature top_p callback
          user_data).trace.get? 1
          = some (Event.sampler_init (build_sampler_chain temperature top_p))) := by
  refine ⟨fun hgt => ?_, fun hgt => ?_, c_float_not_gt_zero_iff temperature,
    fun hgt t2 p2 hgt2 σ E w ctx prompt max_tokens callback user_data => ?_,
    fun {σ} E w h p max_tokens callback user_data htok => ?_⟩
  · simp [build_sampler_chain, hgt]
  · simp [build_sampler_chain, hgt]
  · have h1 : build_sampler_chain temperature top_p = [llama_sampler_stage.greedy] := by
      simp [build_sampler_chain, hgt]
    have h2 : build_sampler_chain t2 p2 = [llama_sampler_stage.greedy] := by
      simp [build_sampler_chain, hgt2]
    simp only [llama_wrapper_generate, h1, h2]
  · by_cases hprime : prime_status E w h p = 0
    · rw [generate_loop_path E w h p max_tokens temperature top_p callback user_data htok
        hprime]
      rfl
    · rw [generate_prime_failed E w h p max_tokens temperature top_p callback user_data htok
        hprime]
      rfl

/-- C8, at `1.0f`, `+0.0f`, `-1.0f` and a quiet NaN: the stochastic chain for the first,
the greedy chain for the other three. -/
theorem sampler_chain_selection_witness :
    build_sampler_chain one_f ⟨0x3F666666⟩
      = [llama_sampler_stage.top_p ⟨0x3F666666⟩ 1, llama_sampler_stage.temp one_f,
         llama_sampler_stage.dist 0]
    ∧ build_sampler_chain zero_f one_f = [llama_sampler_stage.greedy]
    ∧ build_sampler_chain ⟨0xBF800000⟩ one_f = [llama_sampler_stage.greedy]
    ∧ build_sampler_chain ⟨0x7FC00000⟩ one_f = [llama_sampler_stage.greedy] :=
  ⟨(sampler_chain_selection one_f ⟨0x3F666666⟩).1 (by decide),
   (sampler_chain_selection zero_f one_f).2.1 (by decide),
   (sampler_chain_selection ⟨0xBF800000⟩ one_f).2.1 (by decide),
   (sampler_chain_selection ⟨0x7FC00000⟩ one_f).2.1 (by decide)⟩

/-- A handle returned non-null by `llama_wrapper_load_model` holds a model and a context
and no sampler. -/
theorem load_model_handle {σ : Type} (E : LlamaLib σ) (w : World σ)
    (model_path : Option String) (n_ctx n_gpu_layers : Int) (h : LlamaContextInternal)
    (hload : (llama_wrapper_load_model E w model_path n_ctx n_gpu_layers).handle = some h) :
    h.model.isSome = true ∧ h.ctx.isSome = true ∧ h.sampler = none := by
  cases model_path with
  | none => simp [llama_wrapper_load_model] at hload
  | some path =>
    by_cases hp : path.utf8ByteSize = 0
    · simp [llama_wrapper_load_model, hp] at hload
    · simp only [llama_wrapper_load_model, hp, if_false] at hload
      split at hload
      · simp at hload
      · split at hload
        · simp at hload
        · simp only [Option.some.injEq] at hload
          subst hload
          simp

/-- The handle after `llama_wrapper_generate`, for every return: the model and context
fields are the ones before the call, and the sampler field is null if it was null
before. -/
theorem generate_handle {σ : Type} (E : LlamaLib σ) (w : World σ) (h : LlamaContextInternal)
    (prompt : Option String) (max_tokens : Int) (temperature top_p : c_float)
    (callback : TokenCallback σ) (user_data : Nat) (hs : h.sampler = none) :
    ∃ h2, (llama_wrapper_generate E w (some h) prompt max_tokens temperature top_p callback
        user_data).handle = some h2
      ∧ h2.model = h.model ∧ h2.ctx = h.ctx ∧ h2.sampler = none := by
  cases prompt with
  | none => exact ⟨h, rfl, rfl, rfl, hs⟩
  | some p =>
    by_cases htok : 0 ≤ tokenize_count E h p
    · by_cases hprime : prime_status E w h p = 0
      · rw [generate_loop_path E w h p max_tokens temperature top_p callback user_data htok
          hprime]
        exact ⟨_, rfl, rfl, rfl, rfl⟩
      · rw [generate_prime_failed E w h p max_tokens temperature top_p callback user_data htok
          hprime]
        exact ⟨_, rfl, rfl, rfl, rfl⟩
    · rw [generate_tokenize_failed E w h p max_tokens temperature top_p callback user_data
        (by omega)]
      exact ⟨_, rfl, rfl, rfl, hs⟩

/-- C10. The handle invariant (model and context both present or both absent, sampler
field null) holds for every handle `llama_wrapper_load_model` returns non-null, with
model and context both present, so that `llama_wrapper_is_model_loaded` is true; it is
preserved by every return of `llama_wrapper_generate` on a non-null handle (the `-2`,
`-3`, `-4` and every non-negative return), which leaves the model and context fields as
they were; by `llama_wrapper_cancel_generate`; and by `llama_wrapper_is_model_loaded`
and `llama_wrapper_get_model_info`, which leave the handle as it was. -/
theorem handle_invariant_kept {σ : Type} (E : LlamaLib σ) (w : World σ) :
    (∀ (model_path : Option String) (n_ctx n_gpu_layers : Int) (h : LlamaContextInternal),
      (llama_wrapper_load_model E w model_path n_ctx n_gpu_layers).handle = some h →
      handle_invariant h ∧ h.model.isSome = true ∧ h.ctx.isSome = true
      ∧ (llama_wrapper_is_model_loaded (some h)).1 = true)
    ∧ (∀ (h : LlamaContextInternal) (prompt : Option String) (max_tokens : Int)
        (temperature top_p : c_float) (callback : TokenCallback σ) (user_data : Nat),
      handle_invariant h →
      ∃ h2, (llama_wrapper_generate E w (some h) prompt max_tokens temperature top_p callback
          user_data).handle = some h2
        ∧ handle_invariant h2 ∧ h2.model = h.model ∧ h2.ctx = h.ctx)
    ∧ (∀ h : LlamaContextInternal, handle_invariant h →
      ∃ h2, llama_wrapper_cancel_generate (some h) = some h2 ∧ handle_invariant h2)
    ∧ (∀ h : LlamaContextInternal, handle_invariant h →
      (∃ h2, (llama_wrapper_is_model_loaded (some h)).2 = some h2 ∧ handle_invariant h2)
      ∧ (∃ h2, (llama_wrapper_get_model_info E w (some h)).2.2 = some h2
        ∧ handle_invariant h2)) := by
  refine ⟨fun model_path n_ctx n_gpu_layers h hload => ?_,
    fun h prompt max_tokens temperature top_p callback user_data hinv => ?_,
    fun h hinv => ⟨_, rfl, hinv⟩, fun h hinv => ⟨⟨h, rfl, hinv⟩, ⟨h, ?_, hinv⟩⟩⟩
  · obtain ⟨hm, hc, hs⟩ := load_model_handle E w model_path n_ctx n_gpu_layers h hload
    refine ⟨⟨by rw [hm, hc], hs⟩, hm, hc, ?_⟩
    simp [llama_wrapper_is_model_loaded, hm, hc]
  · obtain ⟨h2, hh, hm, hc, hs⟩ := generate_handle E w h prompt max_tokens temperature top_p
      callback user_data hinv.2
    refine ⟨h2, hh, ⟨?_, hs⟩, hm, hc⟩
    rw [hm, hc]
    exact hinv.1
  · unfold llama_wrapper_get_model_info
    simp only
    split_ifs <;> rfl

/-- C10, on the scripted library: the handle loaded from `"m.gguf"` satisfies the
invariant and is reported loaded, and it still satisfies the invariant after a
generation, after a generation whose priming decode fails, and after a cancel. -/
theorem handle_invariant_kept_witness :
    (llama_wrapper_load_model (scriptedLib [5, 6] 99 100) staleWorld (some "m.gguf") 2048
      0).handle = some loadedHandle
    ∧ (handle_invariant loadedHandle ∧ loadedHandle.model.isSome = true
      ∧ loadedHandle.ctx.isSome = true
      ∧ (llama_wrapper_is_model_loaded (some loadedHandle)).1 = true)
    ∧ (∃ h2, (llama_wrapper_generate (scriptedLib [5, 6] 99 100) staleWorld
          (some loadedHandle) (some "x") 10 zero_f one_f continueCallback 0).handle = some h2
        ∧ handle_invariant h2 ∧ h2.model = loadedHandle.model ∧ h2.ctx = loadedHandle.ctx)
    ∧ (∃ h2, llama_wrapper_cancel_generate (some loadedHandle) = some h2
        ∧ handle_invariant h2) :=
  ⟨by decide,
   (handle_invariant_kept (scriptedLib [5, 6] 99 100) staleWorld).1 (some "m.gguf") 2048 0
      loadedHandle (by decide),
   (handle_invariant_kept (scriptedLib [5, 6] 99 100) staleWorld).2.1 loadedHandle (some "x")
      10 zero_f one_f continueCallback 0 (by decide),
   (handle_invariant_kept (scriptedLib [5, 6] 99 100) staleWorld).2.2.1 loadedHandle
      (by decide)⟩

end LlamaWrapper
